import Mathlib

/-!
# BiblioDigital, local-storage variant: data layer

A shallow embedding of the state-management code of
`src/nuevo-itento/js/app-localStorage.js` (session, catalog, favorites,
settings, the reader controls, and the upload, edit and delete handlers), of
`handlePageAuth` and `filterBooks` of `app-firebase.js`, and theorems about
them.

Modelling conventions.

* A JavaScript object is an ordered list of properties (`JObj`); reading a
  property returns the first entry with that key, `none` standing for
  `undefined`.  Property values are the JSON scalars.
* `localStorage` is a record with one optional slot per key the program uses.
  Each slot holds the value that `JSON.parse` gives back for the stored text, so
  `JSON.parse (JSON.stringify v)` is `v`; every text written by
  `JSON.stringify` is non-empty, so the test `if (saved)` is the test that the
  key is present.
* `Date.now()`, `new Date().toISOString()` and `String.prototype.toLowerCase`
  belong to the runtime and are parameters of the functions that use them.
* An event handler runs from start to end without another handler running in
  between.
-/

namespace BiblioDigital

/-! ## JavaScript values and objects -/

/-- JSON scalar values held by object properties. -/
inductive JVal where
  | null
  | bool (b : Bool)
  | num (n : Int)
  | str (s : String)
  deriving DecidableEq, Repr

/-- Objects as ordered property lists. -/
abbrev JObj := List (String × JVal)

/-- Truthiness of a value, as used by `if (v)`, `!v` and `v || w`. -/
def truthy : JVal → Bool
  | .null => false
  | .bool b => b
  | .num n => n != 0
  | .str s => s != ""

/-- Property read `o[k]`: `none` is `undefined`. -/
def getProp : JObj → String → Option JVal
  | [], _ => none
  | (k', v) :: rest, k => if k' = k then some v else getProp rest k

/-- Property write `o[k] = v`: an existing key keeps its place, a new key goes
last. -/
def setProp : JObj → String → JVal → JObj
  | [], k, v => [(k, v)]
  | (k', v') :: rest, k, v =>
    if k' = k then (k, v) :: rest else (k', v') :: setProp rest k v

/-- Copy of the own properties of `src` onto `o`, in order: the effect of
`...src` inside an object literal that so far holds `o`. -/
def assign (o src : JObj) : JObj :=
  src.foldl (fun acc kv => setProp acc kv.1 kv.2) o

/-- The keys of an object, in order. -/
def keys (o : JObj) : List String := o.map Prod.fst

/-- Well-formed object: no key occurs twice. -/
def WF (o : JObj) : Prop := (keys o).Nodup

instance (o : JObj) : Decidable (WF o) := by unfold WF; infer_instance

/-- Embeds `s.includes(sub)` on character lists. -/
def includesChars : List Char → List Char → Bool
  | [], sub => sub.isEmpty
  | c :: cs, sub => sub.isPrefixOf (c :: cs) || includesChars cs sub

/-- Embeds `s.includes(sub)`. -/
def jsIncludes (s sub : String) : Bool := includesChars s.data sub.data

/-- Errors thrown by the runtime. -/
inductive JsError where
  | typeError
  deriving DecidableEq, Repr

/-! ## Program state -/

/-- The keys of `localStorage` the program uses. -/
structure LocalStorage where
  biblioUser : Option JObj
  userPassword : Option String
  biblioBooks : Option (List JObj)
  userSettings : Option JObj
  biblioFavorites : Option (List JVal)
  currentBook : Option JObj
  deriving DecidableEq, Repr

/-- Object store `pdfs` of the IndexedDB database (book id, PDF data). -/
abbrev PdfStore := List (String × String)

/-- Module-level state of `app-localStorage.js`. `db = none` is `db === null`;
`currentUser` is `AuthService.currentUser`; `pathname` is
`window.location.pathname`; `alerts` collects the messages shown by `alert`;
`href` is the last value assigned to `window.location.href`, if any. -/
structure State where
  booksData : List JObj
  currentBooks : List JObj
  selectedBook : Option JObj
  currentCategory : String
  currentSearch : String
  userSettings : JObj
  currentUser : Option JObj
  localStorage : LocalStorage
  db : Option PdfStore
  pathname : String
  alerts : List String
  href : Option String
  deriving DecidableEq, Repr

/-- The compiled-in settings (lines 10-19). -/
def defaultSettings : JObj :=
  [ ("fontSize", .str "medium"),
    ("readerTheme", .str "light"),
    ("autoSave", .bool true),
    ("emailNotifications", .bool true),
    ("newBooks", .bool false),
    ("readingReminders", .bool true),
    ("appTheme", .str "original"),
    ("globalFontSize", .str "medium") ]

/-- State when the script has just been evaluated on a page. -/
def initState (ls : LocalStorage) (path : String) : State :=
  { booksData := [], currentBooks := [], selectedBook := none,
    currentCategory := "all", currentSearch := "",
    userSettings := defaultSettings, currentUser := none,
    localStorage := ls, db := none, pathname := path, alerts := [], href := none }

/-- Embeds `alert(msg)`. -/
def alert (st : State) (msg : String) : State :=
  { st with alerts := st.alerts ++ [msg] }

/-! ## Catalog filter -/

/-- Embeds `arr.filter(p)` for a predicate that may throw: elements are visited from
the left and the first exception ends the call. -/
def filterE (p : JObj → Except JsError Bool) : List JObj → Except JsError (List JObj)
  | [] => .ok []
  | b :: rest =>
    match p b with
    | .error e => .error e
    | .ok keep =>
      match filterE p rest with
      | .error e => .error e
      | .ok r => .ok (if keep then b :: r else r)

/-- Embeds `book[field].toLowerCase().includes(search)`: a `TypeError` unless the
property is a string. -/
def lowerIncludes (lower : String → String) (book : JObj) (field search : String) :
    Except JsError Bool :=
  match getProp book field with
  | some (.str s) => .ok (jsIncludes (lower s) search)
  | _ => .error .typeError

/-- The search predicate of `filterBooks` (lines 576-579), `||` evaluating its
right operand only when the left one is false. -/
def matchesSearch (lower : String → String) (search : String) (book : JObj) :
    Except JsError Bool :=
  match lowerIncludes lower book "title" search with
  | .error e => .error e
  | .ok true => .ok true
  | .ok false =>
    match lowerIncludes lower book "author" search with
    | .error e => .error e
    | .ok true => .ok true
    | .ok false =>
      match lowerIncludes lower book "category" search with
      | .error e => .error e
      | .ok true => .ok true
      | .ok false => lowerIncludes lower book "description" search

/-- The list computed by `filterBooks` (lines 568-581) from `booksData`,
`currentCategory` and `currentSearch`. -/
def filterList (lower : String → String) (books : List JObj) (category search : String) :
    Except JsError (List JObj) :=
  let filtered :=
    if category != "all" then
      books.filter (fun book => getProp book "category" == some (.str category))
    else books
  if search != "" then filterE (matchesSearch lower search) filtered else .ok filtered

/-- Embeds `filterBooks()` (lines 567-585); `displayBooks` only renders. -/
def filterBooks (lower : String → String) (st : State) : Except JsError State :=
  match filterList lower st.booksData st.currentCategory st.currentSearch with
  | .error e => .error e
  | .ok filtered => .ok { st with currentBooks := filtered }

/-- The `input` listener installed by `setupSearch` (lines 560-563). -/
def onSearchInput (lower : String → String) (st : State) (typed : String) :
    Except JsError State :=
  filterBooks lower { st with currentSearch := lower typed }

/-- The `click` listener installed by `setupFilters` (lines 546-552). -/
def onFilterClick (lower : String → String) (st : State) (category : String) :
    Except JsError State :=
  filterBooks lower { st with currentCategory := category }

/-- A book whose four searched properties are strings, as the data model
requires. -/
def isBook (b : JObj) : Prop :=
  (∃ s, getProp b "title" = some (.str s)) ∧ (∃ s, getProp b "author" = some (.str s)) ∧
  (∃ s, getProp b "category" = some (.str s)) ∧ (∃ s, getProp b "description" = some (.str s))

/-- Case-insensitive containment of the search text in a string property:
both sides are lower-cased before the substring test. -/
def fieldContains (lower : String → String) (b : JObj) (field text : String) : Prop :=
  ∃ s, getProp b field = some (.str s) ∧ jsIncludes (lower s) (lower text) = true

/-! ## Catalog -/

/-- Embeds `arr.findIndex(p)` and `arr.indexOf(x)`: position of the first element that
satisfies `p`; `none` is `-1`. -/
def findIndex {α : Type} (p : α → Bool) : List α → Option Nat
  | [] => none
  | a :: rest => if p a then some 0 else (findIndex p rest).map (· + 1)

/-- The comparison `book.id === bookId` for a string `bookId`. -/
def hasId (bookId : String) (book : JObj) : Bool :=
  getProp book "id" == some (.str bookId)

/-- The example books of `loadBooksFromStorage` (lines 330-373); `iso n` is the
text of the `n`-th `new Date().toISOString()` of the literal. -/
def seedBooks (iso : Nat → String) : List JObj :=
  [ [ ("id", .str "book_nocturne"),
      ("title", .str "Nocturne"),
      ("author", .str "Nick Kyme"),
      ("category", .str "Ciencia Ficción"),
      ("description", .str "La guerra ha llegado a Nocturne. Tras décadas de planificación y masacres, Nihilan ha reunido a una inmensa flota de Guerreros Dragón, Eldars Oscuros y Renegados del Caos. En nombre de la venganza lanza su ataque. El Libro de Fuego 3."),
      ("pages", .num 450),
      ("year", .num 2011),
      ("coverUrl", .str "https://images.unsplash.com/photo-1614732414444-096e5f1122d5?w=400&h=600&fit=crop"),
      ("pdfUrl", .str "books/Nocturne.pdf"),
      ("hasPDF", .bool true),
      ("uploadedBy", .str "admin"),
      ("createdAt", .str (iso 0)) ],
    [ ("id", .str "book_draco"),
      ("title", .str "Draco de Fuego"),
      ("author", .str "Nick Kyme"),
      ("category", .str "Ciencia Ficción"),
      ("description", .str "El capellán Elysius de los Salamandra ha sido apresado por los eldars oscuros y los Dracos de Fuego de la 1ª Compañía planean una audaz misión de rescate. Warhammer 40000 - El Libro de Fuego 2."),
      ("pages", .num 380),
      ("year", .num 2010),
      ("coverUrl", .str "https://images.unsplash.com/photo-1551269901-5c5e14c25df7?w=400&h=600&fit=crop"),
      ("pdfUrl", .str "books/Draco_de_fuego.pdf"),
      ("hasPDF", .bool true),
      ("uploadedBy", .str "admin"),
      ("createdAt", .str (iso 1)) ],
    [ ("id", .str "book_salamandra"),
      ("title", .str "Salamandra"),
      ("author", .str "Nick Kyme"),
      ("category", .str "Ciencia Ficción"),
      ("description", .str "Los Marines Espaciales del capítulo Salamandra se dirigen, guiados por una antigua profecía, a un planeta plagado de misterios. Warhammer 40000 - El Libro de Fuego 1."),
      ("pages", .num 420),
      ("year", .num 2009),
      ("coverUrl", .str "https://images.unsplash.com/photo-1534447677768-be436bb09401?w=400&h=600&fit=crop"),
      ("pdfUrl", .str "books/Salamandra.pdf"),
      ("hasPDF", .bool true),
      ("uploadedBy", .str "admin"),
      ("createdAt", .str (iso 2)) ] ]

/-- Embeds `saveBooksToStorage()` (lines 379-381). -/
def saveBooksToStorage (st : State) : State :=
  { st with localStorage := { st.localStorage with biblioBooks := some st.booksData } }

/-- Embeds `loadBooksFromStorage()` (lines 324-377); the value returned is the
`booksData` of the resulting state. -/
def loadBooksFromStorage (iso : Nat → String) (st : State) : State :=
  match st.localStorage.biblioBooks with
  | some saved => { st with booksData := saved }
  | none => saveBooksToStorage { st with booksData := seedBooks iso }

/-- Embeds `bookId || 'book_' + Date.now()` (line 385); `none` is the default `null`. -/
def assignedId (bookId : Option String) (now : Nat) : String :=
  match bookId with
  | some s => if s != "" then s else "book_" ++ toString now
  | none => "book_" ++ toString now

/-- Embeds `AuthService.currentUser?.uid || 'anonymous'` (line 387). -/
def uploaderOf (currentUser : Option JObj) : JVal :=
  match currentUser with
  | none => .str "anonymous"
  | some user =>
    match getProp user "uid" with
    | some v => if truthy v then v else .str "anonymous"
    | none => .str "anonymous"

/-- Embeds `addBook(bookData, bookId)` (lines 383-393): the new book and the state
after the call. `now` is `Date.now()`, `iso` is `new Date().toISOString()`. -/
def addBook (now : Nat) (iso : String) (st : State) (bookData : JObj)
    (bookId : Option String) : JObj × State :=
  let newBook :=
    setProp
      (setProp (assign [("id", .str (assignedId bookId now))] bookData)
        "uploadedBy" (uploaderOf st.currentUser))
      "createdAt" (.str iso)
  (newBook, saveBooksToStorage { st with booksData := newBook :: st.booksData })

/-- Embeds `updateBook(bookId, updatedData)` (lines 395-403): the updated book (`none`
is `null`) and the state after the call. -/
def updateBook (st : State) (bookId : String) (updatedData : JObj) :
    Option JObj × State :=
  match findIndex (hasId bookId) st.booksData with
  | some index =>
    match st.booksData[index]? with
    | some book =>
      let merged := assign (assign [] book) updatedData
      (some merged, saveBooksToStorage { st with booksData := st.booksData.set index merged })
    | none => (none, st)
  | none => (none, st)

/-- Embeds `deletePDFFromIndexedDB(bookId)` (lines 89-103): the promise rejects when
`db` is null and when the request fails (`fault` carries the engine's error),
and resolves otherwise, whether or not the key was there. -/
def deletePDFFromIndexedDB (db : Option PdfStore) (bookId : String)
    (fault : Option String) : Except String PdfStore :=
  match db with
  | none => .error "Database not initialized"
  | some store =>
    match fault with
    | some err => .error err
    | none => .ok (store.filter (fun entry => entry.1 != bookId))

/-- Embeds `if (book.hasPDF)`. -/
def hasPDF (book : JObj) : Bool :=
  match getProp book "hasPDF" with
  | some v => truthy v
  | none => false

/-- Embeds `deleteBook(bookId)` (lines 405-421): the value returned and the state after
the call. -/
def deleteBook (st : State) (bookId : String) (fault : Option String) : Bool × State :=
  match findIndex (hasId bookId) st.booksData with
  | some index =>
    match st.booksData[index]? with
    | some book =>
      let st1 :=
        if hasPDF book then
          match deletePDFFromIndexedDB st.db bookId fault with
          | .ok store => { st with db := some store }
          | .error _ => st
        else st
      (true, saveBooksToStorage { st1 with booksData := st1.booksData.eraseIdx index })
    | none => (false, st)
  | none => (false, st)

/-! ## Favorites -/

/-- Embeds `AuthService.isAuthenticated()` (lines 118-120). -/
def isAuthenticated (st : State) : Bool := st.currentUser.isSome

/-- Embeds `getFavorites()` (lines 433-436). -/
def getFavorites (st : State) : List JVal :=
  match st.localStorage.biblioFavorites with
  | some saved => saved
  | none => []

/-- Embeds `saveFavorites(favorites)` (lines 438-440). -/
def saveFavorites (st : State) (favorites : List JVal) : State :=
  { st with localStorage := { st.localStorage with biblioFavorites := some favorites } }

/-- Embeds `addToFavorites()` (lines 442-459). A book without `id` gives `undefined`,
which no parsed array contains and which `JSON.stringify` writes as `null`. -/
def addToFavorites (st : State) : State :=
  match st.selectedBook with
  | none => st
  | some book =>
    if !isAuthenticated st then
      alert st "Debes iniciar sesión para agregar favoritos"
    else
      let favorites := getFavorites st
      match getProp book "id" with
      | some id =>
        if favorites.contains id then
          alert st "Este libro ya está en tus favoritos."
        else
          alert (saveFavorites st (favorites ++ [id])) "¡Libro agregado a favoritos!"
      | none =>
        alert (saveFavorites st (favorites ++ [.null])) "¡Libro agregado a favoritos!"

/-- Embeds `initFavorites()` (lines 1063-1068); `displayBooks` only renders. -/
def initFavorites (iso : Nat → String) (st : State) : State :=
  loadBooksFromStorage iso st

/-- Embeds `removeFromFavorites()` (lines 461-476); `closeModal` only touches the
page. -/
def removeFromFavorites (iso : Nat → String) (st : State) : State :=
  match st.selectedBook with
  | none => st
  | some book =>
    if !isAuthenticated st then st
    else
      let favorites := getFavorites st
      match getProp book "id" with
      | none => st
      | some id =>
        match findIndex (fun x => x == id) favorites with
        | none => st
        | some index =>
          let st1 := alert (saveFavorites st (favorites.eraseIdx index))
            "Libro removido de favoritos"
          if jsIncludes st1.pathname "favorites.html" then initFavorites iso st1 else st1

/-! ## Settings -/

/-- Embeds `loadSettings()` (lines 1219-1224). -/
def loadSettings (st : State) : State :=
  match st.localStorage.userSettings with
  | some saved => { st with userSettings := assign (assign [] st.userSettings) saved }
  | none => st

/-- Embeds `saveSettings()` (lines 1226-1228). -/
def saveSettings (st : State) : State :=
  { st with localStorage := { st.localStorage with userSettings := some st.userSettings } }

/-- The values offered for `fontSize` (settings page and line 1162). -/
def fontSizes : List String := ["small", "medium", "large", "xlarge"]

/-! ## Session -/

/-- Message of the error thrown by `signIn` when no user is stored. -/
def msgNotFound : String := "Usuario no encontrado. Por favor regístrate primero."

/-- Message of the error thrown by `signIn` when the email differs. -/
def msgInvalidEmail : String := "Correo electrónico incorrecto."

/-- Message of the error thrown by `signIn` when the password differs. -/
def msgInvalidPassword : String := "Contraseña incorrecta."

/-- Embeds `AuthService.handlePageAuth()` (lines 122-131). -/
def handlePageAuth (st : State) : State :=
  if jsIncludes st.pathname "login.html" && isAuthenticated st then
    { st with href := some "index.html" }
  else st

/-- Embeds `AuthService.init()` (lines 109-116); `updateUserInfoUI` only touches
the page. -/
def authInit (st : State) : State :=
  handlePageAuth
    (match st.localStorage.biblioUser with
     | some savedUser => { st with currentUser := some savedUser }
     | none => st)

/-- Embeds `AuthService.signUp(name, email, password)` (lines 133-148): the user
returned and the state after the call. -/
def signUp (now : Nat) (iso : String) (st : State) (name email password : String) :
    JObj × State :=
  let user : JObj :=
    [ ("uid", .str ("user_" ++ toString now)), ("name", .str name), ("email", .str email),
      ("createdAt", .str iso) ]
  (user,
   { st with
     currentUser := some user
     localStorage := { st.localStorage with
       biblioUser := some user
       userPassword := some password
       biblioFavorites := some [] } })

/-- Embeds `AuthService.signIn(email, password)` (lines 150-169): the message of
the error thrown, or the user returned and the state after the call. A throw
leaves the state as it was. -/
def signIn (st : State) (email password : String) : Except String (JObj × State) :=
  match st.localStorage.biblioUser with
  | none => .error msgNotFound
  | some user =>
    if getProp user "email" != some (.str email) then .error msgInvalidEmail
    else if st.localStorage.userPassword != some password then .error msgInvalidPassword
    else .ok (user, { st with currentUser := some user })

/-- Embeds `AuthService.signOut()` (lines 171-177); `confirmed` is the answer to
the `confirm` dialog. -/
def signOut (st : State) (confirmed : Bool) : State :=
  if confirmed then
    { st with
      currentUser := none
      localStorage := { st.localStorage with biblioUser := none }
      href := some "login.html" }
  else st

/-- Embeds `AuthService.updateProfile(name, email)` (lines 247-254);
`updateUserInfoUI` only touches the page. -/
def updateProfile (st : State) (name email : String) : State :=
  match st.currentUser with
  | none => st
  | some user =>
    let user' := setProp (setProp user "name" (.str name)) "email" (.str email)
    { st with
      currentUser := some user'
      localStorage := { st.localStorage with biblioUser := some user' } }

/-- The `submit` listener of the auth form (lines 295-320): `isSignUp` is the
mode of the form; an error thrown inside `try` is shown by `alert`. -/
def onAuthSubmit (now : Nat) (iso : String) (st : State) (isSignUp : Bool)
    (name email password : String) : State :=
  if isSignUp then
    if name == "" then alert st "El nombre es obligatorio."
    else { (signUp now iso st name email password).2 with href := some "index.html" }
  else
    match signIn st email password with
    | .ok signedIn => { signedIn.2 with href := some "index.html" }
    | .error msg => alert st msg

/-! ## Upload, edit and delete handlers -/

/-- A `File` of a form: its name, its size in bytes, and what `FileReader`
gives for it (`none` when reading fails). -/
structure JsFile where
  name : String
  size : Nat
  dataUrl : Option String
  deriving DecidableEq, Repr

/-- The entries of the upload and edit forms; `cover` and `pdf` are `none` when
no file is selected. -/
structure BookForm where
  title : String
  author : String
  category : String
  description : String
  pages : String
  year : String
  cover : Option JsFile
  pdf : Option JsFile
  deriving DecidableEq, Repr

/-- What the handlers read from the runtime: `parseInt` (`none` is `NaN`),
`Date.now()`, `new Date().getFullYear()`, `new Date().toISOString()`, the clock
of the seed literal, and the error of the IndexedDB request if it fails. -/
structure Runtime where
  parseInt : String → Option Int
  now : Nat
  fullYear : Int
  iso : String
  seedIso : Nat → String
  idbFault : Option String

/-- The limit `50 * 1024 * 1024` of lines 732 and 908. -/
def maxPdfSize : Nat := 50 * 1024 * 1024

/-- Embeds `readFileAsDataURL(file)` (lines 776-783). -/
def readFileAsDataURL (file : JsFile) : Except String String :=
  match file.dataUrl with
  | some url => .ok url
  | none => .error "Error reading file"

/-- Embeds `savePDFToIndexedDB(bookId, pdfDataUrl)` (lines 51-65): `put` replaces
the entry of the key. -/
def savePDFToIndexedDB (db : Option PdfStore) (bookId pdfDataUrl : String)
    (fault : Option String) : Except String PdfStore :=
  match db with
  | none => .error "Database not initialized"
  | some store =>
    match fault with
    | some err => .error err
    | none => .ok (store.filter (fun entry => entry.1 != bookId) ++ [(bookId, pdfDataUrl)])

/-- Embeds `parseInt(text) || fallback`. -/
def intOr (parsed : Option Int) (fallback : Int) : Int :=
  match parsed with
  | some n => if n != 0 then n else fallback
  | none => fallback

/-- Embeds `booksData.find(b => b.id === bookId)`. -/
def findBook (st : State) (bookId : String) : Option JObj :=
  st.booksData.find? (hasId bookId)

/-- Embeds `book.uploadedBy !== AuthService.currentUser?.uid` (lines 790, 938). -/
def ownerMismatch (st : State) (book : JObj) : Bool :=
  getProp book "uploadedBy" != st.currentUser.bind (fun user => getProp user "uid")

/-- The `try` block of `handleUploadSubmit` (lines 740-769) with its `catch`. -/
def uploadBody (rt : Runtime) (st : State) (form : BookForm) (coverFile pdfFile : JsFile) :
    State :=
  match readFileAsDataURL coverFile with
  | .error msg => alert st ("Error al subir el libro: " ++ msg)
  | .ok coverDataUrl =>
    match readFileAsDataURL pdfFile with
    | .error msg => alert st ("Error al subir el libro: " ++ msg)
    | .ok pdfDataUrl =>
      let bookId := "book_" ++ toString rt.now
      let bookData : JObj :=
        [ ("title", .str form.title),
          ("author", .str form.author),
          ("category", .str form.category),
          ("description", .str form.description),
          ("pages", .num (intOr (rt.parseInt form.pages) 0)),
          ("year", .num (intOr (rt.parseInt form.year) rt.fullYear)),
          ("coverUrl", .str coverDataUrl),
          ("pdfUrl", .str ""),
          ("hasPDF", .bool true),
          ("content", .str ("PDF: " ++ pdfFile.name)) ]
      let added := addBook rt.now rt.iso st bookData (some bookId)
      let saved :=
        match getProp added.1 "id" with
        | some (.str id) => savePDFToIndexedDB added.2.db id pdfDataUrl rt.idbFault
        | _ => .error "DataError"
      match saved with
      | .error msg => alert added.2 ("Error al subir el libro: " ++ msg)
      | .ok store =>
        loadBooksFromStorage rt.seedIso
          (alert { added.2 with db := some store } "¡Libro subido exitosamente!")

/-- Embeds `handleUploadSubmit(e)` (lines 706-774) on the entries of the
submitted form. -/
def handleUploadSubmit (rt : Runtime) (st : State) (form : BookForm) : State :=
  if !isAuthenticated st then
    { alert st "Debes iniciar sesión para subir un libro" with href := some "login.html" }
  else
    match form.cover with
    | none => alert st "Debes seleccionar una imagen de portada"
    | some coverFile =>
      if coverFile.size == 0 then alert st "Debes seleccionar una imagen de portada"
      else
        match form.pdf with
        | none => alert st "Debes seleccionar un archivo PDF"
        | some pdfFile =>
          if pdfFile.size == 0 then alert st "Debes seleccionar un archivo PDF"
          else if pdfFile.size > maxPdfSize then
            alert st "El archivo PDF es demasiado grande. Máximo 50MB"
          else uploadBody rt st form coverFile pdfFile

/-- The check the browser makes on the upload form before it fires `submit`:
the controls marked `required` in the form of `openUploadModal` (lines 640-681)
have a value. -/
def uploadFormValid (form : BookForm) : Bool :=
  form.title != "" && form.author != "" && form.category != "" &&
    form.description != "" && form.cover.isSome && form.pdf.isSome

/-- A click on the submit button of the upload form: the listener
`handleUploadSubmit` (line 695) runs when the form passes the browser's check. -/
def submitUploadForm (rt : Runtime) (st : State) (form : BookForm) : State :=
  if uploadFormValid form then handleUploadSubmit rt st form else st

/-- Embeds `openEditModal(bookId)` (lines 786-867): the state after the call
and whether the modal was opened, with `handleEditSubmit` listening for
`bookId`. -/
def openEditModal (st : State) (bookId : String) : State × Bool :=
  match findBook st bookId with
  | none => (st, false)
  | some book =>
    if ownerMismatch st book then (alert st "Solo puedes editar tus propios libros", false)
    else (st, true)

/-- The end of the `try` block of `handleEditSubmit` (lines 920-924). -/
def finishEdit (rt : Runtime) (st : State) (bookId : String) (updateData : JObj) : State :=
  loadBooksFromStorage rt.seedIso
    (alert (updateBook st bookId updateData).2 "¡Libro actualizado exitosamente!")

/-- Embeds `handleEditSubmit(e, bookId)` (lines 877-932) on the entries of the
submitted form. -/
def handleEditSubmit (rt : Runtime) (st : State) (form : BookForm) (bookId : String) : State :=
  match findBook st bookId with
  | none => st
  | some _ =>
    let updateData : JObj :=
      [ ("title", .str form.title),
        ("author", .str form.author),
        ("category", .str form.category),
        ("description", .str form.description),
        ("pages", .num (intOr (rt.parseInt form.pages) 0)),
        ("year", .num (intOr (rt.parseInt form.year) rt.fullYear)) ]
    let withCover : Except String JObj :=
      match form.cover with
      | some coverFile =>
        if coverFile.size > 0 then
          match readFileAsDataURL coverFile with
          | .ok url => .ok (setProp updateData "coverUrl" (.str url))
          | .error msg => .error msg
        else .ok updateData
      | none => .ok updateData
    match withCover with
    | .error msg => alert st ("Error al actualizar el libro: " ++ msg)
    | .ok updateData1 =>
      match form.pdf with
      | none => finishEdit rt st bookId updateData1
      | some pdfFile =>
        if pdfFile.size > 0 then
          if pdfFile.size > maxPdfSize then
            alert st "El archivo PDF es demasiado grande. Máximo 50MB"
          else
            match readFileAsDataURL pdfFile with
            | .error msg => alert st ("Error al actualizar el libro: " ++ msg)
            | .ok pdfDataUrl =>
              match savePDFToIndexedDB st.db bookId pdfDataUrl rt.idbFault with
              | .error msg => alert st ("Error al actualizar el libro: " ++ msg)
              | .ok store =>
                finishEdit rt { st with db := some store } bookId
                  (setProp (setProp updateData1 "hasPDF" (.bool true))
                    "content" (.str ("PDF: " ++ pdfFile.name)))
        else finishEdit rt st bookId updateData1

/-- The edit of a book through the page: `openEditModal(bookId)`, then, when
the modal has opened, the submission of its form. -/
def editBook (rt : Runtime) (st : State) (bookId : String) (form : BookForm) : State :=
  let opened := openEditModal st bookId
  if opened.2 then handleEditSubmit rt opened.1 form bookId else opened.1

/-- Embeds `confirmDeleteBook(bookId)` (lines 934-950); `confirmed` is the answer
to the `confirm` dialog. -/
def confirmDeleteBook (rt : Runtime) (st : State) (bookId : String) (confirmed : Bool) :
    State :=
  match findBook st bookId with
  | none => st
  | some book =>
    if ownerMismatch st book then alert st "Solo puedes eliminar tus propios libros"
    else if confirmed then
      loadBooksFromStorage rt.seedIso
        (alert (deleteBook st bookId rt.idbFault).2 "Libro eliminado exitosamente")
    else st

/-! ## PDF store reads, reader controls, networked variant -/

/-- Embeds `getPDFFromIndexedDB(bookId)` (lines 67-87): `none` inside `ok` is the
`null` resolved when the store has no entry for the key. -/
def getPDFFromIndexedDB (db : Option PdfStore) (bookId : String) (fault : Option String) :
    Except String (Option String) :=
  match db with
  | none => .error "Database not initialized"
  | some store =>
    match fault with
    | some err => .error err
    | none => .ok ((store.find? (fun entry => entry.1 == bookId)).map (fun entry => entry.2))

/-- The object `bookData` built by `handleUploadSubmit` (lines 746-757). -/
def uploadBookData (rt : Runtime) (form : BookForm) (coverDataUrl : String)
    (pdfFile : JsFile) : JObj :=
  [ ("title", .str form.title),
    ("author", .str form.author),
    ("category", .str form.category),
    ("description", .str form.description),
    ("pages", .num (intOr (rt.parseInt form.pages) 0)),
    ("year", .num (intOr (rt.parseInt form.year) rt.fullYear)),
    ("coverUrl", .str coverDataUrl),
    ("pdfUrl", .str ""),
    ("hasPDF", .bool true),
    ("content", .str ("PDF: " ++ pdfFile.name)) ]

/-- A sequence of submissions of the upload form, each with the runtime values
read during it. -/
def runUploads (st : State) (uploads : List (Runtime × BookForm)) : State :=
  uploads.foldl (fun acc upload => handleUploadSubmit upload.1 acc upload.2) st

/-- The `id` properties of the books of the in-memory catalog. -/
def bookIds (st : State) : List (Option JVal) :=
  st.booksData.map (fun b => getProp b "id")

/-- Embeds `arr.indexOf(current)` for an array of strings: `-1` when absent. -/
def indexOfStr (arr : List String) (current : Option JVal) : Int :=
  match current with
  | some (.str s) =>
    match findIndex (fun x => x == s) arr with
    | some i => (i : Int)
    | none => -1
  | _ => -1

/-- The values of `readerTheme` (line 1184). -/
def readerThemes : List String := ["light", "dark", "sepia"]

/-- Embeds `increaseFontSize()` (lines 1161-1170); `applyReaderSettings` only
touches the page. The index read is between 0 and 3, so the array has an
element there. -/
def increaseFontSize (st : State) : State :=
  let index := indexOfStr fontSizes (getProp st.userSettings "fontSize")
  if index < (fontSizes.length : Int) - 1 then
    match fontSizes[(index + 1).toNat]? with
    | some size =>
      saveSettings { st with userSettings := setProp st.userSettings "fontSize" (.str size) }
    | none => st
  else st

/-- Embeds `decreaseFontSize()` (lines 1172-1181). -/
def decreaseFontSize (st : State) : State :=
  let index := indexOfStr fontSizes (getProp st.userSettings "fontSize")
  if index > 0 then
    match fontSizes[(index - 1).toNat]? with
    | some size =>
      saveSettings { st with userSettings := setProp st.userSettings "fontSize" (.str size) }
    | none => st
  else st

/-- Embeds `toggleTheme()` (lines 1183-1191). -/
def toggleTheme (st : State) : State :=
  let index := indexOfStr readerThemes (getProp st.userSettings "readerTheme")
  let nextIndex := (index + 1) % (readerThemes.length : Int)
  match readerThemes[nextIndex.toNat]? with
  | some theme =>
    saveSettings { st with userSettings := setProp st.userSettings "readerTheme" (.str theme) }
  | none => st

/-- Embeds `path.endsWith(suffix)`. -/
def jsEndsWith (path suffix : String) : Bool := suffix.data.isSuffixOf path.data

/-- Embeds `AuthService.handlePageAuth()` of the networked variant
(`app-firebase.js`, lines 54-64): the page assigned to `window.location.href`,
if any. -/
def handlePageAuthNetworked (path : String) (authenticated : Bool) : Option String :=
  let isAuthPage := jsIncludes path "login.html"
  let isPublicPage := jsIncludes path "index.html" || path == "/" || jsEndsWith path "/public/"
  if isAuthPage && authenticated then some "index.html"
  else if !isPublicPage && !isAuthPage && !authenticated then some "login.html"
  else none

/-- Embeds `filterBooks()` of the networked variant (`app-firebase.js`, lines
321-343): `fetched` is what `loadBooksFromDB()` puts in `booksData` (the empty
list when the request fails). -/
def filterBooksNetworked (lower : String → String) (fetched : List JObj) (st : State) :
    Except JsError State :=
  let st1 := if st.booksData.length == 0 then { st with booksData := fetched } else st
  match filterList lower st1.booksData st1.currentCategory st1.currentSearch with
  | .error e => .error e
  | .ok filtered => .ok { st1 with currentBooks := filtered }

/-- The eight labels offered by the upload and edit forms (lines 650-657 and
821-828). -/
def categoryLabels : List String :=
  ["Ficción", "No Ficción", "Ciencia", "Tecnología", "Historia", "Biografía", "Educación",
   "Arte"]

/-- Value of a decimal digit character. -/
def decimalDigit (c : Char) : Option Nat :=
  if c.toNat ≥ 48 ∧ c.toNat ≤ 57 then some (c.toNat - 48) else none

/-- Value of the longest prefix of decimal digits, `none` when the list does not
start with a digit; `acc` is the value read so far. -/
def readDigits : List Char → Option Nat → Option Nat
  | [], acc => acc
  | c :: rest, acc =>
    match decimalDigit c with
    | some d => readDigits rest (some (acc.getD 0 * 10 + d))
    | none => acc

/-- A model of `parseInt(text)` for the texts of a number input: leading white
space is skipped, an optional sign is read, then the longest prefix of decimal
digits; `none` is `NaN`. Hexadecimal prefixes and values beyond the exact range
of a double are left out. -/
def jsParseInt (text : String) : Option Int :=
  let trimmed := text.data.dropWhile Char.isWhitespace
  match trimmed with
  | '-' :: rest => (readDigits rest none).map (fun n => - (n : Int))
  | '+' :: rest => (readDigits rest none).map (fun n => (n : Int))
  | _ => (readDigits trimmed none).map (fun n => (n : Int))

/-! ## Reference predicates used in the statements -/

/-- Total reading of `book[field].toLowerCase().includes(search)`: false when
the property is not a string. -/
def strIncludes (lower : String → String) (search : String) (b : JObj) (field : String) : Bool :=
  match getProp b field with
  | some (.str s) => jsIncludes (lower s) search
  | _ => false

/-- The books kept for a category and a stored search text. -/
def keepBook (lower : String → String) (category search : String) (b : JObj) : Bool :=
  (category == "all" || getProp b "category" == some (.str category)) &&
  (search == "" ||
    (strIncludes lower search b "title" || strIncludes lower search b "author" ||
     strIncludes lower search b "category" || strIncludes lower search b "description"))

/-- One step up in `small, medium, large, xlarge`, staying at `xlarge`. -/
def sizeUp (f : String) : String :=
  if f = "small" then "medium" else if f = "medium" then "large" else "xlarge"

/-- One step down in `small, medium, large, xlarge`, staying at `small`. -/
def sizeDown (f : String) : String :=
  if f = "xlarge" then "large" else if f = "large" then "medium" else "small"

/-- The theme after `t` in the cycle `light, dark, sepia`. -/
def themeNext (t : String) : String :=
  if t = "light" then "dark" else if t = "dark" then "sepia" else "light"

/-- Characters of the decimal numeral of `n`, most significant first. -/
def decimalChars (n : Nat) : List Char :=
  if n = 0 then ['0'] else (Nat.digits 10 n).reverse.map Nat.digitChar

/-- Value of a digit character. -/
def charValue (c : Char) : Nat := c.toNat - 48

/-- Number written by a list of digit characters. -/
def numeralValue (cs : List Char) : Nat := Nat.ofDigits 10 (cs.reverse.map charValue)

/-! ## Example values -/

/-- ASCII lower-casing, the instance of `toLowerCase` used in the examples. -/
def asciiLower (s : String) : String := ⟨s.data.map Char.toLower⟩

/-- A `localStorage` with none of the program's keys. -/
def emptyStorage : LocalStorage :=
  { biblioUser := none, userPassword := none, biblioBooks := none,
    userSettings := none, biblioFavorites := none, currentBook := none }

/-- A clock for the examples. -/
def sampleIso (n : Nat) : String := if n = 0 then "t0" else if n = 1 then "t1" else "t2"

/-- A signed-in user for the examples. -/
def sampleUser : JObj :=
  [ ("uid", .str "user_7"), ("name", .str "Ana"), ("email", .str "ana@example.com"),
    ("createdAt", .str "t0") ]

/-- A book for the examples. -/
def sampleBook (id title category : String) : JObj :=
  [ ("id", .str id), ("title", .str title), ("author", .str "Nick Kyme"),
    ("category", .str category), ("description", .str "El Libro de Fuego"),
    ("hasPDF", .bool true), ("uploadedBy", .str "user_7") ]

/-- A state for the examples: the catalog page with the given catalog in memory
and in storage, the given favorites stored, `selected` open in the modal. -/
def sampleState (user : Option JObj) (books : List JObj) (favorites : Option (List JVal))
    (selected : Option JObj) : State :=
  { initState { emptyStorage with biblioBooks := some books, biblioFavorites := favorites }
      "/catalog.html" with
    booksData := books
    currentUser := user
    selectedBook := selected
    db := some [] }

/-- A runtime for the examples: `parseInt` knows two texts. -/
def sampleRuntime : Runtime :=
  { parseInt := fun text =>
      if text = "120" then some 120 else if text = "2020" then some 2020 else none
    now := 5
    fullYear := 2024
    iso := "t"
    seedIso := sampleIso
    idbFault := none }

/-- A readable file of the given size for the examples. -/
def sampleFile (name : String) (size : Nat) : JsFile :=
  { name := name, size := size, dataUrl := some "data:application/pdf;base64,AAAA" }

/-- A filled form for the examples, with the given title and PDF size. -/
def sampleForm (title : String) (pdfSize : Nat) : BookForm :=
  { title := title, author := "Nick Kyme", category := "Ciencia",
    description := "El Libro de Fuego", pages := "120", year := "2020",
    cover := some (sampleFile "cover.png" 1000), pdf := some (sampleFile "book.pdf" pdfSize) }

/-! ## Lemmas on objects and lists -/

theorem includesChars_nil (l : List Char) : includesChars l [] = true := by
  cases l <;> simp [includesChars]

theorem jsIncludes_empty (s : String) : jsIncludes s "" = true := by
  simp [jsIncludes, includesChars_nil]

theorem filterE_eq_filter (p : JObj → Except JsError Bool) (q : JObj → Bool) :
    ∀ l : List JObj, (∀ b ∈ l, p b = .ok (q b)) → filterE p l = .ok (l.filter q) := by
  intro l
  induction l with
  | nil => intro _; rfl
  | cons b rest ih =>
    intro h
    have hb := h b (List.mem_cons_self _ _)
    have hr := ih (fun x hx => h x (List.mem_cons_of_mem _ hx))
    simp only [filterE, hb, hr, List.filter_cons]

theorem lowerIncludes_of_str (lower : String → String) (b : JObj) (field search s : String)
    (h : getProp b field = some (.str s)) :
    lowerIncludes lower b field search = .ok (strIncludes lower search b field) := by
  simp [lowerIncludes, strIncludes, h]

theorem matchesSearch_of_isBook (lower : String → String) (search : String) (b : JObj)
    (h : isBook b) :
    matchesSearch lower search b =
      .ok (strIncludes lower search b "title" || strIncludes lower search b "author" ||
           strIncludes lower search b "category" || strIncludes lower search b "description") := by
  obtain ⟨⟨t, ht⟩, ⟨a, ha⟩, ⟨c, hc⟩, ⟨d, hd⟩⟩ := h
  simp only [matchesSearch, lowerIncludes_of_str lower b _ search _ ht,
    lowerIncludes_of_str lower b _ search _ ha, lowerIncludes_of_str lower b _ search _ hc,
    lowerIncludes_of_str lower b _ search _ hd]
  cases strIncludes lower search b "title" <;> cases strIncludes lower search b "author" <;>
    cases strIncludes lower search b "category" <;> simp

theorem filterList_eq_filter (lower : String → String) (books : List JObj)
    (category search : String) (h : ∀ b ∈ books, isBook b) :
    filterList lower books category search = .ok (books.filter (keepBook lower category search)) := by
  unfold filterList
  by_cases hc : category = "all" <;> by_cases hs : search = ""
  · subst hc; subst hs
    simp only [bne_self_eq_false, Bool.false_eq_true, if_false]
    congr 1
    symm
    apply List.filter_eq_self.mpr
    intro b _
    simp [keepBook]
  · subst hc
    simp only [bne_self_eq_false, Bool.false_eq_true, if_false, bne_iff_ne, ne_eq, hs,
      not_false_eq_true, if_true]
    rw [filterE_eq_filter _ _ books (fun b hb => matchesSearch_of_isBook lower search b (h b hb))]
    congr 1
    apply List.filter_congr
    intro b _
    simp [keepBook, hs]
  · subst hs
    simp only [bne_iff_ne, ne_eq, hc, not_false_eq_true, if_true, bne_self_eq_false,
      Bool.false_eq_true, if_false]
    congr 1
    apply List.filter_congr
    intro b _
    simp [keepBook, hc]
  · simp only [bne_iff_ne, ne_eq, hc, hs, not_false_eq_true, if_true]
    rw [filterE_eq_filter _ _ _ (fun b hb =>
      matchesSearch_of_isBook lower search b (h b (List.mem_of_mem_filter hb)))]
    rw [List.filter_filter]
    congr 1
    apply List.filter_congr
    intro b _
    have hc' : (category == "all") = false := by simp [hc]
    have hs' : (search == "") = false := by simp [hs]
    simp [keepBook, hc', hs', Bool.and_comm]

theorem getProp_setProp (o : JObj) (k k' : String) (v : JVal) :
    getProp (setProp o k v) k' = if k = k' then some v else getProp o k' := by
  induction o with
  | nil => simp [setProp, getProp]
  | cons e rest ih =>
    obtain ⟨k1, v1⟩ := e
    by_cases h1 : k1 = k
    · subst h1
      by_cases h2 : k1 = k' <;> simp [setProp, getProp, h2]
    · by_cases h2 : k1 = k'
      · subst h2
        have h3 : ¬ k = k1 := fun h => h1 h.symm
        simp [setProp, getProp, h1, h3]
      · simp [setProp, getProp, h1, h2, ih]

theorem getProp_eq_none_iff (o : JObj) (k : String) :
    getProp o k = none ↔ k ∉ keys o := by
  induction o with
  | nil => simp [getProp, keys]
  | cons e rest ih =>
    obtain ⟨k1, v1⟩ := e
    by_cases h1 : k1 = k
    · subst h1
      simp [getProp, keys]
    · have h2 : ¬ k = k1 := fun h => h1 h.symm
      simp only [getProp, h1, if_false, ih]
      simp [keys, h2]

theorem getProp_of_mem (o : JObj) (hwf : WF o) (k : String) (v : JVal) (hm : (k, v) ∈ o) :
    getProp o k = some v := by
  induction o with
  | nil => simp at hm
  | cons e rest ih =>
    obtain ⟨k1, v1⟩ := e
    have hnd : k1 ∉ keys rest ∧ WF rest := by
      simpa [WF, keys] using hwf
    rcases List.mem_cons.mp hm with heq | hin
    · cases heq
      simp [getProp]
    · have hk : k ∈ keys rest := List.mem_map.mpr ⟨(k, v), hin, rfl⟩
      have h1 : ¬ k1 = k := fun h => hnd.1 (h ▸ hk)
      simp only [getProp, h1, if_false]
      exact ih hnd.2 hin

theorem setProp_of_not_mem (o : JObj) (k : String) (v : JVal) (h : k ∉ keys o) :
    setProp o k v = o ++ [(k, v)] := by
  induction o with
  | nil => rfl
  | cons e rest ih =>
    obtain ⟨k1, v1⟩ := e
    have h' : ¬ k = k1 ∧ k ∉ keys rest := by simpa [keys] using h
    have h1 : ¬ k1 = k := fun hh => h'.1 hh.symm
    simp [setProp, h1, ih h'.2]

theorem setProp_eq_self (o : JObj) (k : String) (v : JVal) (h : getProp o k = some v) :
    setProp o k v = o := by
  induction o with
  | nil => simp [getProp] at h
  | cons e rest ih =>
    obtain ⟨k1, v1⟩ := e
    by_cases h1 : k1 = k
    · subst h1
      simp only [getProp, if_true, Option.some.injEq] at h
      simp [setProp, h]
    · simp only [getProp, h1, if_false] at h
      simp [setProp, h1, ih h]

theorem assign_cons (o : JObj) (e : String × JVal) (src : JObj) :
    assign o (e :: src) = assign (setProp o e.1 e.2) src := rfl

theorem assign_append_of_disjoint (src : JObj) :
    ∀ acc : JObj, WF src → (∀ k ∈ keys src, k ∉ keys acc) → assign acc src = acc ++ src := by
  induction src with
  | nil => intro acc _ _; simp [assign]
  | cons e rest ih =>
    intro acc hwf hdis
    obtain ⟨k1, v1⟩ := e
    have hnd : k1 ∉ keys rest ∧ WF rest := by
      simpa [WF, keys] using hwf
    have hk1 : k1 ∉ keys acc := hdis k1 (by simp [keys])
    rw [assign_cons, setProp_of_not_mem acc k1 v1 hk1, ih _ hnd.2]
    · simp
    · intro k hk
      have h1 : k ∉ keys acc := hdis k (by simp only [keys, List.map_cons, List.mem_cons]; right; exact hk)
      have h2 : k ≠ k1 := fun h => hnd.1 (h ▸ hk)
      simp only [keys, List.map_append, List.map_cons, List.map_nil, List.mem_append,
        List.mem_singleton, not_or]
      exact ⟨h1, h2⟩

theorem assign_nil_of_WF (a : JObj) (h : WF a) : assign [] a = a := by
  have := assign_append_of_disjoint a [] h (by simp [keys])
  simpa using this

theorem assign_eq_self (src : JObj) :
    ∀ o : JObj, (∀ kv ∈ src, getProp o kv.1 = some kv.2) → assign o src = o := by
  induction src with
  | nil => intro o _; rfl
  | cons e rest ih =>
    intro o h
    rw [assign_cons, setProp_eq_self o e.1 e.2 (h e (List.mem_cons_self _ _))]
    exact ih o (fun kv hkv => h kv (List.mem_cons_of_mem _ hkv))

theorem assign_self_of_WF (u : JObj) (h : WF u) : assign u u = u :=
  assign_eq_self u u (fun kv hkv => getProp_of_mem u h kv.1 kv.2 hkv)

theorem getProp_assign_of_not_mem (src : JObj) (k : String) (hk : k ∉ keys src) :
    ∀ o : JObj, getProp (assign o src) k = getProp o k := by
  induction src with
  | nil => intro o; rfl
  | cons e rest ih =>
    intro o
    obtain ⟨k1, v1⟩ := e
    have h' : ¬ k = k1 ∧ k ∉ keys rest := by simpa [keys] using hk
    have h1 : ¬ k1 = k := fun hh => h'.1 hh.symm
    rw [assign_cons, ih h'.2, getProp_setProp]
    simp [h1]

theorem getProp_assign_of_some (src : JObj) (k : String) (v : JVal) :
    WF src → getProp src k = some v → ∀ o : JObj, getProp (assign o src) k = some v := by
  induction src with
  | nil => intro _ h; simp [getProp] at h
  | cons e rest ih =>
    intro hwf h o
    obtain ⟨k1, v1⟩ := e
    have hnd : k1 ∉ keys rest ∧ WF rest := by
      simpa [WF, keys] using hwf
    by_cases h1 : k1 = k
    · subst h1
      simp only [getProp, if_true, Option.some.injEq] at h
      subst h
      rw [assign_cons, getProp_assign_of_not_mem rest k1 hnd.1, getProp_setProp]
      simp
    · simp only [getProp, h1, if_false] at h
      rw [assign_cons]
      exact ih hnd.2 h _

theorem getProp_assign (o src : JObj) (k : String) (hwf : WF src) :
    getProp (assign o src) k = (getProp src k).orElse (fun _ => getProp o k) := by
  cases hg : getProp src k with
  | none =>
    rw [getProp_assign_of_not_mem src k ((getProp_eq_none_iff src k).mp hg)]
    rfl
  | some v =>
    rw [getProp_assign_of_some src k v hwf hg]
    rfl

theorem findIndex_some {α : Type} (p : α → Bool) :
    ∀ (l : List α) (i : Nat), findIndex p l = some i →
      ∃ a, l[i]? = some a ∧ p a = true ∧ ∀ j, j < i → ∀ b, l[j]? = some b → p b = false := by
  intro l
  induction l with
  | nil => intro i h; simp [findIndex] at h
  | cons a rest ih =>
    intro i h
    by_cases hp : p a = true
    · simp only [findIndex, hp, if_true, Option.some.injEq] at h
      subst h
      exact ⟨a, List.getElem?_cons_zero, hp, fun j hj => absurd hj (Nat.not_lt_zero j)⟩
    · simp only [findIndex, hp, Bool.false_eq_true, if_false, Option.map_eq_some'] at h
      obtain ⟨i', hi', rfl⟩ := h
      obtain ⟨x, hx, hpx, hlt⟩ := ih i' hi'
      refine ⟨x, by simpa using hx, hpx, ?_⟩
      intro j hj b hb
      cases j with
      | zero =>
        simp only [List.getElem?_cons_zero, Option.some.injEq] at hb
        subst hb
        simpa using hp
      | succ j' =>
        exact hlt j' (by omega) b (by simpa using hb)

theorem findIndex_of_mem {α : Type} (p : α → Bool) :
    ∀ (l : List α) (a : α), a ∈ l → p a = true → ∃ i, findIndex p l = some i := by
  intro l
  induction l with
  | nil => intro a h; simp at h
  | cons x rest ih =>
    intro a ha hp
    by_cases hx : p x = true
    · exact ⟨0, by simp [findIndex, hx]⟩
    · rcases List.mem_cons.mp ha with heq | hin
      · exact absurd (heq ▸ hp) hx
      · obtain ⟨i, hi⟩ := ih a hin hp
        exact ⟨i + 1, by simp [findIndex, hx, hi]⟩

theorem findIndex_none {α : Type} (p : α → Bool) :
    ∀ (l : List α), findIndex p l = none → ∀ a ∈ l, p a = false := by
  intro l
  induction l with
  | nil => intro _ a h; simp at h
  | cons x rest ih =>
    intro h a ha
    by_cases hx : p x = true
    · simp [findIndex, hx] at h
    · simp only [findIndex, hx, Bool.false_eq_true, if_false, Option.map_eq_none'] at h
      rcases List.mem_cons.mp ha with heq | hin
      · subst heq; simpa using hx
      · exact ih h a hin

theorem eraseIdx_findIndex_all_false {α : Type} (p : α → Bool) :
    ∀ (l : List α) (i : Nat), l.countP p ≤ 1 → findIndex p l = some i →
      ∀ b ∈ l.eraseIdx i, p b = false := by
  intro l
  induction l with
  | nil => intro i _ h; simp [findIndex] at h
  | cons a rest ih =>
    intro i hc h b hb
    by_cases hp : p a = true
    · simp only [findIndex, hp, if_true, Option.some.injEq] at h
      subst h
      simp only [List.eraseIdx_cons_zero] at hb
      rw [List.countP_cons_of_pos _ _ hp] at hc
      have h0 : rest.countP p = 0 := by omega
      have := List.countP_eq_zero.mp h0 b hb
      simpa using this
    · simp only [findIndex, hp, Bool.false_eq_true, if_false, Option.map_eq_some'] at h
      obtain ⟨i', hi', rfl⟩ := h
      rw [List.countP_cons_of_neg _ _ hp] at hc
      simp only [List.eraseIdx_cons_succ, List.mem_cons] at hb
      rcases hb with heq | hin
      · subst heq; simpa using hp
      · exact ih i' hc hi' b hin

theorem eraseIdx_findIndex_eq_erase (a : JVal) :
    ∀ (l : List JVal) (i : Nat), findIndex (fun x => x == a) l = some i →
      l.eraseIdx i = l.erase a := by
  intro l
  induction l with
  | nil => intro i h; simp [findIndex] at h
  | cons x rest ih =>
    intro i h
    by_cases hx : x = a
    · subst hx
      simp only [findIndex, beq_self_eq_true, if_true, Option.some.injEq] at h
      subst h
      simp
    · have hb : (x == a) = false := by simpa using hx
      simp only [findIndex, hb, Bool.false_eq_true, if_false, Option.map_eq_some'] at h
      obtain ⟨i', hi', rfl⟩ := h
      simp only [List.eraseIdx_cons_succ, ih i' hi']
      rw [List.erase_cons_tail]
      simpa using hx

theorem findIndex_beq_of_mem (a : JVal) (l : List JVal) (h : a ∈ l) :
    ∃ i, findIndex (fun x => x == a) l = some i :=
  findIndex_of_mem (fun x => x == a) l a h (by simp)

theorem findIndex_beq_of_not_mem (a : JVal) (l : List JVal) (h : a ∉ l) :
    findIndex (fun x => x == a) l = none := by
  cases hf : findIndex (fun x => x == a) l with
  | none => rfl
  | some i =>
    obtain ⟨x, hx, hp, _⟩ := findIndex_some (fun x => x == a) l i hf
    have : x = a := by simpa using hp
    exact absurd (this ▸ List.getElem?_mem hx) h

theorem getFavorites_loadBooksFromStorage (clock : Nat → String) (st : State) :
    getFavorites (loadBooksFromStorage clock st) = getFavorites st := by
  unfold loadBooksFromStorage
  cases st.localStorage.biblioBooks <;> simp [getFavorites, saveBooksToStorage]

theorem isBook_sampleBook (id title category : String) :
    isBook (sampleBook id title category) := by
  refine ⟨⟨title, ?_⟩, ⟨"Nick Kyme", ?_⟩, ⟨category, ?_⟩, ⟨"El Libro de Fuego", ?_⟩⟩ <;>
    simp [getProp, sampleBook]

theorem WF_sampleBook (id title category : String) : WF (sampleBook id title category) := by
  simp [WF, keys, sampleBook]

/-! ## Catalog filter: theorems -/

/-- C1: after the user has selected `category` and typed `typed` (stored
lower-cased by `setupSearch`), `filterBooks` succeeds on every catalog of books
and `currentBooks` holds a book exactly when it is in the catalog, its category
is the selected one (or the selection is "all") and, when the typed text is
non-empty, one of title, author, category, description contains it, both sides
lower-cased. -/
theorem filterBooks_mem_iff (lower : String → String) (hlow : lower "" = "")
    (st : State) (category typed : String) (h : ∀ b ∈ st.booksData, isBook b) :
    ∃ st', filterBooks lower { st with currentCategory := category, currentSearch := lower typed }
        = .ok st' ∧
      st'.booksData = st.booksData ∧
      ∀ b, b ∈ st'.currentBooks ↔
        (b ∈ st.booksData ∧
         (category = "all" ∨ getProp b "category" = some (.str category)) ∧
         (typed ≠ "" →
            fieldContains lower b "title" typed ∨ fieldContains lower b "author" typed ∨
            fieldContains lower b "category" typed ∨ fieldContains lower b "description" typed)) := by
  have hsc : ∀ (b : JObj) (field : String),
      strIncludes lower (lower typed) b field = true ↔ fieldContains lower b field typed := by
    intro b field
    unfold strIncludes fieldContains
    cases hg : getProp b field with
    | none => simp
    | some v => cases v <;> simp
  refine ⟨{ st with
      currentCategory := category
      currentSearch := lower typed
      currentBooks := st.booksData.filter (keepBook lower category (lower typed)) }, ?_, rfl, ?_⟩
  · simp only [filterBooks, filterList_eq_filter lower st.booksData category (lower typed) h]
  · intro b
    simp only [List.mem_filter]
    constructor
    · rintro ⟨hb, hk⟩
      refine ⟨hb, ?_, ?_⟩
      · simp only [keepBook, Bool.and_eq_true, Bool.or_eq_true, beq_iff_eq] at hk
        exact hk.1
      · intro _
        simp only [keepBook, Bool.and_eq_true, Bool.or_eq_true, beq_iff_eq] at hk
        rcases hk.2 with he | hh
        · obtain ⟨⟨t, ht⟩, _⟩ := h b hb
          left
          exact ⟨t, ht, by rw [he]; exact jsIncludes_empty _⟩
        · simpa only [hsc, or_assoc] using hh
    · rintro ⟨hb, hcat, hsearch⟩
      refine ⟨hb, ?_⟩
      simp only [keepBook, Bool.and_eq_true, Bool.or_eq_true, beq_iff_eq]
      refine ⟨hcat, ?_⟩
      by_cases ht : typed = ""
      · left; rw [ht, hlow]
      · right
        simpa only [hsc, or_assoc] using hsearch ht

/-- C1, witness: category "Ciencia" selected and "NOC" typed over a catalog of
two books; the book titled "Nocturne" is kept. -/
theorem filterBooks_mem_iff_witness :
    ∃ st', filterBooks asciiLower
        { sampleState none [sampleBook "book_1" "Nocturne" "Ciencia",
            sampleBook "book_2" "Salamandra" "Ciencia"] none none with
          currentCategory := "Ciencia", currentSearch := asciiLower "NOC" } = .ok st' ∧
      sampleBook "book_1" "Nocturne" "Ciencia" ∈ st'.currentBooks :=
  let ⟨st', h1, _, h3⟩ := filterBooks_mem_iff asciiLower rfl
    (sampleState none [sampleBook "book_1" "Nocturne" "Ciencia",
      sampleBook "book_2" "Salamandra" "Ciencia"] none none) "Ciencia" "NOC"
    (by
      intro b hb
      simp only [sampleState, List.mem_cons, List.mem_singleton, List.not_mem_nil,
        or_false] at hb
      rcases hb with h | h <;> subst h <;> exact isBook_sampleBook _ _ _)
  ⟨st', h1, (h3 _).mpr ⟨by decide, Or.inr (by decide),
    fun _ => Or.inl ⟨"Nocturne", by decide, by decide⟩⟩⟩

/-- C2: on every catalog of books, for every selected category and stored
search text, `filterBooks` succeeds, its output is a sublist of the catalog, and
filtering that output again with the same category and search text gives the
same output. -/
theorem filterBooks_sublist_idempotent (lower : String → String) (st : State)
    (h : ∀ b ∈ st.booksData, isBook b) :
    ∃ r, filterList lower st.booksData st.currentCategory st.currentSearch = .ok r ∧
      filterBooks lower st = .ok { st with currentBooks := r } ∧
      r.Sublist st.booksData ∧
      filterList lower r st.currentCategory st.currentSearch = .ok r ∧
      filterBooks lower { st with booksData := r } =
        .ok { st with booksData := r, currentBooks := r } := by
  have h1 := filterList_eq_filter lower st.booksData st.currentCategory st.currentSearch h
  have hr : ∀ b ∈ st.booksData.filter (keepBook lower st.currentCategory st.currentSearch),
      isBook b := fun b hb => h b (List.mem_of_mem_filter hb)
  have h2 := filterList_eq_filter lower _ st.currentCategory st.currentSearch hr
  rw [List.filter_filter] at h2
  have h3 : (st.booksData.filter fun a =>
        keepBook lower st.currentCategory st.currentSearch a &&
          keepBook lower st.currentCategory st.currentSearch a) =
      st.booksData.filter (keepBook lower st.currentCategory st.currentSearch) := by
    apply List.filter_congr
    intro b _
    simp
  rw [h3] at h2
  refine ⟨_, h1, ?_, List.filter_sublist _, h2, ?_⟩
  · simp only [filterBooks, h1]
  · simp only [filterBooks, h2]

/-- C2, witness: the same two-book catalog with "Ciencia" selected and "noc"
stored as search text. -/
theorem filterBooks_sublist_idempotent_witness :
    ∃ r, filterList asciiLower
        [sampleBook "book_1" "Nocturne" "Ciencia", sampleBook "book_2" "Salamandra" "Ciencia"]
        "Ciencia" "noc" = .ok r ∧
      r.Sublist
        [sampleBook "book_1" "Nocturne" "Ciencia", sampleBook "book_2" "Salamandra" "Ciencia"] ∧
      filterList asciiLower r "Ciencia" "noc" = .ok r :=
  let ⟨r, h1, _, h3, h4, _⟩ := filterBooks_sublist_idempotent asciiLower
    { sampleState none [sampleBook "book_1" "Nocturne" "Ciencia",
        sampleBook "book_2" "Salamandra" "Ciencia"] none none with
      currentCategory := "Ciencia", currentSearch := "noc" }
    (by
      intro b hb
      simp only [sampleState, List.mem_cons, List.mem_singleton, List.not_mem_nil,
        or_false] at hb
      rcases hb with h | h <;> subst h <;> exact isBook_sampleBook _ _ _)
  ⟨r, h1, h3, h4⟩

/-! ## Catalog operations: theorems -/

/-- C3: when the catalog holds a book with id `bookId`, `updateBook(bookId, p)`
replaces the first such book by a merged record in which every property that is
not a key of `p` has its former value (and, for a well-formed `p`, every
property of `p` has the value given by `p`); the catalog keeps its length, every
other position keeps its book, and the result is persisted. With
`p = {title: x}` every property other than `title` is unchanged. -/
theorem updateBook_changes_only_given_fields (st : State) (bookId : String) (p : JObj)
    (hwf : ∀ b ∈ st.booksData, WF b)
    (hmem : ∃ b ∈ st.booksData, hasId bookId b = true) :
    ∃ index book merged,
      findIndex (hasId bookId) st.booksData = some index ∧
      st.booksData[index]? = some book ∧ hasId bookId book = true ∧
      (updateBook st bookId p).1 = some merged ∧
      (updateBook st bookId p).2.booksData[index]? = some merged ∧
      (∀ k, k ∉ keys p → getProp merged k = getProp book k) ∧
      (WF p → ∀ k v, getProp p k = some v → getProp merged k = some v) ∧
      (∀ x k, p = [("title", .str x)] → k ≠ "title" → getProp merged k = getProp book k) ∧
      (updateBook st bookId p).2.booksData.length = st.booksData.length ∧
      (∀ j, j ≠ index →
        (updateBook st bookId p).2.booksData[j]? = st.booksData[j]?) ∧
      (updateBook st bookId p).2.localStorage.biblioBooks =
        some (updateBook st bookId p).2.booksData := by
  obtain ⟨b, hb, hid⟩ := hmem
  obtain ⟨index, hidx⟩ := findIndex_of_mem (hasId bookId) st.booksData b hb hid
  obtain ⟨book, hget, hbook, _⟩ := findIndex_some (hasId bookId) st.booksData index hidx
  have hbmem : book ∈ st.booksData := List.getElem?_mem hget
  have hbwf : WF book := hwf book hbmem
  have hlt : index < st.booksData.length := by
    rcases Nat.lt_or_ge index st.booksData.length with h | h
    · exact h
    · rw [List.getElem?_eq_none h] at hget; cases hget
  have hframe : ∀ k, k ∉ keys p →
      getProp (assign (assign [] book) p) k = getProp book k := by
    intro k hk
    rw [getProp_assign_of_not_mem p k hk, assign_nil_of_WF book hbwf]
  refine ⟨index, book, assign (assign [] book) p, hidx, hget, hbook, ?_, ?_, hframe, ?_, ?_,
    ?_, ?_, ?_⟩
  · simp [updateBook, hidx, hget]
  · simp [updateBook, hidx, hget, saveBooksToStorage, List.getElem?_set, hlt]
  · intro hp k v hk
    exact getProp_assign_of_some p k v hp hk _
  · intro x k hp hk
    apply hframe
    rw [hp]
    simpa [keys] using hk
  · simp [updateBook, hidx, hget, saveBooksToStorage]
  · intro j hj
    simp [updateBook, hidx, hget, saveBooksToStorage, List.getElem?_set, Ne.symm hj]
  · simp [updateBook, hidx, hget, saveBooksToStorage]

/-- C3, witness: `updateBook("book_2", {title: "X"})` on a two-book catalog
keeps the author of the second book and leaves the first book alone. -/
theorem updateBook_changes_only_given_fields_witness :
    ∃ (index : Nat) (book merged : JObj),
      (updateBook (sampleState (some sampleUser)
          [sampleBook "book_1" "Nocturne" "Ciencia", sampleBook "book_2" "Salamandra" "Ciencia"]
          none none) "book_2" [("title", .str "X")]).1 = some merged ∧
      getProp merged "author" = getProp book "author" ∧
      (updateBook (sampleState (some sampleUser)
          [sampleBook "book_1" "Nocturne" "Ciencia", sampleBook "book_2" "Salamandra" "Ciencia"]
          none none) "book_2" [("title", .str "X")]).2.booksData[index]? = some merged :=
  let ⟨index, book, merged, _, _, _, h4, h5, h6, _⟩ :=
    updateBook_changes_only_given_fields (sampleState (some sampleUser)
      [sampleBook "book_1" "Nocturne" "Ciencia", sampleBook "book_2" "Salamandra" "Ciencia"]
      none none) "book_2" [("title", .str "X")]
      (by
        intro b hb
        simp only [sampleState, List.mem_cons, List.mem_singleton, List.not_mem_nil,
          or_false] at hb
        rcases hb with h | h <;> subst h <;> exact WF_sampleBook _ _ _)
      ⟨sampleBook "book_2" "Salamandra" "Ciencia", by decide, by decide⟩
  ⟨index, book, merged, h4, h6 "author" (by decide), h5⟩

theorem getProp_id_addBook (now : Nat) (iso : String) (st : State) (f : JObj)
    (bookId : Option String) (hf : "id" ∉ keys f) :
    getProp (addBook now iso st f bookId).1 "id" = some (.str (assignedId bookId now)) := by
  simp only [addBook, getProp_setProp]
  rw [getProp_assign_of_not_mem f "id" hf]
  simp [getProp]

/-- C4 (amended): for every state, book fields `f` without an `id` property and
id argument, after `addBook` a following `loadBooksFromStorage` returns the new
book followed by the former catalog, and the id of the new book is the assigned
one: the argument `i` when it is a non-empty string, and `book_` followed by the
clock reading when the argument is empty or absent. -/
theorem addBook_then_load_includes_new (now : Nat) (iso : String) (clock : Nat → String)
    (st : State) (f : JObj) (bookId : Option String) (hf : "id" ∉ keys f) :
    (loadBooksFromStorage clock (addBook now iso st f bookId).2).booksData =
        (addBook now iso st f bookId).1 :: st.booksData ∧
      (addBook now iso st f bookId).1 ∈
        (loadBooksFromStorage clock (addBook now iso st f bookId).2).booksData ∧
      getProp (addBook now iso st f bookId).1 "id" = some (.str (assignedId bookId now)) ∧
      (∀ i, bookId = some i → i ≠ "" →
        getProp (addBook now iso st f bookId).1 "id" = some (.str i)) := by
  have hload : (loadBooksFromStorage clock (addBook now iso st f bookId).2).booksData =
      (addBook now iso st f bookId).1 :: st.booksData := by
    simp [addBook, loadBooksFromStorage, saveBooksToStorage]
  refine ⟨hload, ?_, getProp_id_addBook now iso st f bookId hf, ?_⟩
  · rw [hload]; exact List.mem_cons_self _ _
  · intro i hi hne
    rw [getProp_id_addBook now iso st f bookId hf, hi]
    simp [assignedId, hne]

/-- C4, witness: a book added with id `book_9` to a one-book catalog. -/
theorem addBook_then_load_includes_new_witness :
    (loadBooksFromStorage sampleIso
        (addBook 5 "t" (sampleState (some sampleUser) [sampleBook "book_1" "Nocturne" "Ciencia"] none none)
          [("title", .str "Salamandra")] (some "book_9")).2).booksData =
        (addBook 5 "t" (sampleState (some sampleUser) [sampleBook "book_1" "Nocturne" "Ciencia"] none none)
          [("title", .str "Salamandra")] (some "book_9")).1 ::
          [sampleBook "book_1" "Nocturne" "Ciencia"] ∧
      getProp (addBook 5 "t" (sampleState (some sampleUser) [sampleBook "book_1" "Nocturne" "Ciencia"] none none)
          [("title", .str "Salamandra")] (some "book_9")).1 "id" = some (.str "book_9") :=
  have h := addBook_then_load_includes_new 5 "t" sampleIso
    (sampleState (some sampleUser) [sampleBook "book_1" "Nocturne" "Ciencia"] none none)
    [("title", .str "Salamandra")] (some "book_9") (by decide)
  ⟨h.1, h.2.2.2 "book_9" rfl (by decide)⟩

/-- C4, counterexample: with the empty string as id argument the new book gets
the generated id `book_5` and no book of the reloaded catalog has id `""`; with
book fields that carry an `id` the new book has that id, not the argument. -/
theorem addBook_given_id_not_assigned :
    (getProp (addBook 5 "t" (sampleState (some sampleUser) [] none none)
        [("title", .str "Salamandra")] (some "")).1 "id" = some (.str "book_5") ∧
      ∀ b ∈ (loadBooksFromStorage sampleIso
          (addBook 5 "t" (sampleState (some sampleUser) [] none none)
            [("title", .str "Salamandra")] (some "")).2).booksData,
        getProp b "id" ≠ some (.str "")) ∧
    (getProp (addBook 5 "t" (sampleState (some sampleUser) [] none none)
        [("id", .str "book_mine"), ("title", .str "Salamandra")] (some "book_9")).1 "id"
          = some (.str "book_mine") ∧
      ∀ b ∈ (loadBooksFromStorage sampleIso
          (addBook 5 "t" (sampleState (some sampleUser) [] none none)
            [("id", .str "book_mine"), ("title", .str "Salamandra")] (some "book_9")).2).booksData,
        getProp b "id" ≠ some (.str "book_9")) := by
  decide

theorem deleteBook_eq (st : State) (bookId : String) (fault : Option String)
    (index : Nat) (book : JObj) (hidx : findIndex (hasId bookId) st.booksData = some index)
    (hget : st.booksData[index]? = some book) :
    (deleteBook st bookId fault).1 = true ∧
      (deleteBook st bookId fault).2.booksData = st.booksData.eraseIdx index ∧
      (deleteBook st bookId fault).2.localStorage.biblioBooks =
        some (st.booksData.eraseIdx index) := by
  unfold deleteBook
  rw [hidx]
  simp only [hget]
  cases hasPDF book <;> cases deletePDFFromIndexedDB st.db bookId fault <;>
    simp [saveBooksToStorage]

/-- C5 (amended): when `bookId` is the id of exactly one book of the catalog,
`deleteBook(bookId)` returns true whatever the state of the PDF store (not
opened, entry absent, deletion failing with an error), removes that book and
persists the catalog, so that a following `loadBooksFromStorage` returns the
former catalog without it and with no book whose id is `bookId`. -/
theorem deleteBook_then_load_excludes (clock : Nat → String) (st : State) (bookId : String)
    (fault : Option String) (hone : st.booksData.countP (hasId bookId) = 1) :
    (deleteBook st bookId fault).1 = true ∧
      (∃ index, findIndex (hasId bookId) st.booksData = some index ∧
        (loadBooksFromStorage clock (deleteBook st bookId fault).2).booksData =
          st.booksData.eraseIdx index) ∧
      (∀ b ∈ (loadBooksFromStorage clock (deleteBook st bookId fault).2).booksData,
        hasId bookId b = false) ∧
      (loadBooksFromStorage clock (deleteBook st bookId fault).2).booksData.length + 1 =
        st.booksData.length := by
  have hpos : 0 < st.booksData.countP (hasId bookId) := by omega
  obtain ⟨b, hb, hid⟩ := List.countP_pos_iff.mp hpos
  obtain ⟨index, hidx⟩ := findIndex_of_mem (hasId bookId) st.booksData b hb hid
  obtain ⟨book, hget, _, _⟩ := findIndex_some (hasId bookId) st.booksData index hidx
  obtain ⟨hret, hmem, hsaved⟩ := deleteBook_eq st bookId fault index book hidx hget
  have hlt : index < st.booksData.length := by
    rcases Nat.lt_or_ge index st.booksData.length with h | h
    · exact h
    · rw [List.getElem?_eq_none h] at hget; cases hget
  have hload : (loadBooksFromStorage clock (deleteBook st bookId fault).2).booksData =
      st.booksData.eraseIdx index := by
    simp only [loadBooksFromStorage, hsaved]
  refine ⟨hret, ⟨index, hidx, hload⟩, ?_, ?_⟩
  · rw [hload]
    exact eraseIdx_findIndex_all_false (hasId bookId) st.booksData index (by omega) hidx
  · rw [hload, List.length_eraseIdx_of_lt hlt]
    omega

/-- C5, witness: deleting `book_1` from a two-book catalog while the PDF store
reports an error. -/
theorem deleteBook_then_load_excludes_witness :
    (deleteBook (sampleState (some sampleUser)
        [sampleBook "book_1" "Nocturne" "Ciencia", sampleBook "book_2" "Salamandra" "Ciencia"]
        none none) "book_1" (some "QuotaExceededError")).1 = true ∧
      ∀ b ∈ (loadBooksFromStorage sampleIso (deleteBook (sampleState (some sampleUser)
          [sampleBook "book_1" "Nocturne" "Ciencia", sampleBook "book_2" "Salamandra" "Ciencia"]
          none none) "book_1" (some "QuotaExceededError")).2).booksData,
        hasId "book_1" b = false :=
  have h := deleteBook_then_load_excludes sampleIso (sampleState (some sampleUser)
    [sampleBook "book_1" "Nocturne" "Ciencia", sampleBook "book_2" "Salamandra" "Ciencia"]
    none none) "book_1" (some "QuotaExceededError") (by decide)
  ⟨h.1, h.2.2.1⟩

/-- C5, counterexample: in a catalog where two books have id `book_1`,
`deleteBook("book_1")` returns true and removes the first of them only, so the
reloaded catalog still holds a book whose id is `book_1`. -/
theorem deleteBook_leaves_second_book_with_same_id :
    (deleteBook (sampleState (some sampleUser)
        [sampleBook "book_1" "Nocturne" "Ciencia", sampleBook "book_1" "Salamandra" "Ciencia"]
        none none) "book_1" none).1 = true ∧
      (loadBooksFromStorage sampleIso (deleteBook (sampleState (some sampleUser)
        [sampleBook "book_1" "Nocturne" "Ciencia", sampleBook "book_1" "Salamandra" "Ciencia"]
        none none) "book_1" none).2).booksData = [sampleBook "book_1" "Salamandra" "Ciencia"] ∧
      ∃ b ∈ (loadBooksFromStorage sampleIso (deleteBook (sampleState (some sampleUser)
        [sampleBook "book_1" "Nocturne" "Ciencia", sampleBook "book_1" "Salamandra" "Ciencia"]
        none none) "book_1" none).2).booksData, hasId "book_1" b = true := by
  decide

/-! ## Favorites: theorems -/

theorem addToFavorites_of_mem (st : State) (book : JObj) (id : JVal)
    (hauth : isAuthenticated st = true) (hsel : st.selectedBook = some book)
    (hid : getProp book "id" = some id) (hmem : id ∈ getFavorites st) :
    addToFavorites st = alert st "Este libro ya está en tus favoritos." := by
  simp [addToFavorites, hsel, hauth, hid, hmem]

theorem addToFavorites_of_not_mem (st : State) (book : JObj) (id : JVal)
    (hauth : isAuthenticated st = true) (hsel : st.selectedBook = some book)
    (hid : getProp book "id" = some id) (hmem : id ∉ getFavorites st) :
    addToFavorites st =
      alert (saveFavorites st (getFavorites st ++ [id])) "¡Libro agregado a favoritos!" := by
  simp [addToFavorites, hsel, hauth, hid, hmem]

/-- C6: in an authenticated session, with a selected book of id `i` and a
duplicate-free persisted favorites list, after two calls of `addToFavorites` the
persisted list holds `i` exactly once; the second call leaves `localStorage`
unchanged; after each call the list is duplicate-free; the first call appends
`i` when it was absent and changes nothing when it was present. -/
theorem addToFavorites_twice_one_occurrence (st : State) (book : JObj) (i : String)
    (hauth : isAuthenticated st = true) (hsel : st.selectedBook = some book)
    (hid : getProp book "id" = some (.str i)) (hnd : (getFavorites st).Nodup) :
    (getFavorites (addToFavorites (addToFavorites st))).count (.str i) = 1 ∧
      (addToFavorites (addToFavorites st)).localStorage = (addToFavorites st).localStorage ∧
      getFavorites (addToFavorites (addToFavorites st)) = getFavorites (addToFavorites st) ∧
      (getFavorites (addToFavorites st)).Nodup ∧
      (getFavorites (addToFavorites (addToFavorites st))).Nodup ∧
      (JVal.str i ∉ getFavorites st →
        getFavorites (addToFavorites st) = getFavorites st ++ [.str i]) ∧
      (JVal.str i ∈ getFavorites st → getFavorites (addToFavorites st) = getFavorites st) := by
  have key : ∃ st1, addToFavorites st = st1 ∧ isAuthenticated st1 = true ∧
      st1.selectedBook = some book ∧ JVal.str i ∈ getFavorites st1 ∧ (getFavorites st1).Nodup ∧
      (JVal.str i ∉ getFavorites st → getFavorites st1 = getFavorites st ++ [.str i]) ∧
      (JVal.str i ∈ getFavorites st → getFavorites st1 = getFavorites st) := by
    by_cases hmem : JVal.str i ∈ getFavorites st
    · refine ⟨_, addToFavorites_of_mem st book _ hauth hsel hid hmem, ?_, ?_, ?_, ?_, ?_, ?_⟩
      · simpa [alert, isAuthenticated] using hauth
      · simpa [alert] using hsel
      · simpa [alert, getFavorites] using hmem
      · simpa [alert, getFavorites] using hnd
      · intro h; exact absurd hmem h
      · intro _; simp [alert, getFavorites]
    · refine ⟨_, addToFavorites_of_not_mem st book _ hauth hsel hid hmem, ?_, ?_, ?_, ?_, ?_, ?_⟩
      · simpa [alert, saveFavorites, isAuthenticated] using hauth
      · simpa [alert, saveFavorites] using hsel
      · simp [alert, saveFavorites, getFavorites]
      · have : (getFavorites st ++ [JVal.str i]).Nodup := by
          rw [List.nodup_append]
          refine ⟨hnd, List.nodup_singleton _, ?_⟩
          intro a ha hb
          simp only [List.mem_singleton] at hb
          exact hmem (hb ▸ ha)
        simpa [alert, saveFavorites, getFavorites] using this
      · intro _; simp [alert, saveFavorites, getFavorites]
      · intro h; exact absurd h hmem
  obtain ⟨st1, h1, hauth1, hsel1, hmem1, hnd1, happ, hsame⟩ := key
  have h2 : addToFavorites st1 = alert st1 "Este libro ya está en tus favoritos." :=
    addToFavorites_of_mem st1 book _ hauth1 hsel1 hid hmem1
  rw [h1, h2]
  have hfav : getFavorites (alert st1 "Este libro ya está en tus favoritos.") =
      getFavorites st1 := by simp [alert, getFavorites]
  refine ⟨?_, by simp [alert], hfav, hnd1, by rw [hfav]; exact hnd1, happ, hsame⟩
  rw [hfav]
  exact List.count_eq_one_of_mem hnd1 hmem1

/-- C6, witness: two adds of `book_1` to the stored list `["book_2"]`. -/
theorem addToFavorites_twice_one_occurrence_witness :
    (getFavorites (addToFavorites (addToFavorites
        (sampleState (some sampleUser) [sampleBook "book_1" "Nocturne" "Ciencia"]
          (some [.str "book_2"]) (some (sampleBook "book_1" "Nocturne" "Ciencia")))))).count
        (.str "book_1") = 1 :=
  (addToFavorites_twice_one_occurrence
    (sampleState (some sampleUser) [sampleBook "book_1" "Nocturne" "Ciencia"]
      (some [.str "book_2"]) (some (sampleBook "book_1" "Nocturne" "Ciencia")))
    (sampleBook "book_1" "Nocturne" "Ciencia") "book_1" (by decide) (by decide) (by decide)
    (by decide)).1

theorem removeFromFavorites_of_not_mem (clock : Nat → String) (st : State) (book : JObj)
    (id : JVal) (hsel : st.selectedBook = some book) (hid : getProp book "id" = some id)
    (hmem : id ∉ getFavorites st) : removeFromFavorites clock st = st := by
  unfold removeFromFavorites
  simp only [hsel, hid, findIndex_beq_of_not_mem id _ hmem]
  split <;> rfl

theorem getFavorites_removeFromFavorites_of_mem (clock : Nat → String) (st : State)
    (book : JObj) (id : JVal) (hauth : isAuthenticated st = true)
    (hsel : st.selectedBook = some book) (hid : getProp book "id" = some id)
    (hmem : id ∈ getFavorites st) :
    getFavorites (removeFromFavorites clock st) = (getFavorites st).erase id := by
  obtain ⟨index, hidx⟩ := findIndex_beq_of_mem id _ hmem
  unfold removeFromFavorites
  simp only [hsel, hid, hauth, hidx, Bool.not_true, Bool.false_eq_true, if_false]
  rw [eraseIdx_findIndex_eq_erase id _ index hidx]
  split
  · rw [initFavorites, getFavorites_loadBooksFromStorage]
    simp [alert, saveFavorites, getFavorites]
  · simp [alert, saveFavorites, getFavorites]

/-- C7 (amended): with a selected book of id `i`, `removeFromFavorites` changes
nothing at all when `i` is not a member of the persisted favorites list `L`, and
nothing either when the session is not authenticated; in an authenticated
session with a duplicate-free `L` that contains `i`, the persisted list
afterwards is `L` without `i`, the other ids in their former order. -/
theorem removeFromFavorites_spec (clock : Nat → String) (st : State) (book : JObj)
    (i : String) (hsel : st.selectedBook = some book)
    (hid : getProp book "id" = some (.str i)) :
    (JVal.str i ∉ getFavorites st → removeFromFavorites clock st = st) ∧
      (isAuthenticated st = false → removeFromFavorites clock st = st) ∧
      (isAuthenticated st = true → (getFavorites st).Nodup → JVal.str i ∈ getFavorites st →
        getFavorites (removeFromFavorites clock st) =
            (getFavorites st).filter (fun x => x != .str i) ∧
          JVal.str i ∉ getFavorites (removeFromFavorites clock st) ∧
          (removeFromFavorites clock st).localStorage.biblioFavorites =
            some ((getFavorites st).filter (fun x => x != .str i))) := by
  refine ⟨removeFromFavorites_of_not_mem clock st book _ hsel hid, ?_, ?_⟩
  · intro hanon
    simp [removeFromFavorites, hsel, hanon]
  · intro hauth hnd hmem
    have h1 := getFavorites_removeFromFavorites_of_mem clock st book _ hauth hsel hid hmem
    have h2 : (getFavorites st).erase (JVal.str i) =
        (getFavorites st).filter (fun x => x != .str i) := by
      rw [List.Nodup.erase_eq_filter hnd]
    have h3 : getFavorites (removeFromFavorites clock st) =
        (getFavorites st).filter (fun x => x != .str i) := by rw [h1, h2]
    refine ⟨h3, ?_, ?_⟩
    · rw [h3]; simp
    · obtain ⟨index, hidx⟩ := findIndex_beq_of_mem (JVal.str i) _ hmem
      rw [← h2, ← eraseIdx_findIndex_eq_erase _ _ index hidx]
      unfold removeFromFavorites
      simp only [hsel, hid, hauth, hidx, Bool.not_true, Bool.false_eq_true, if_false]
      split
      · simp only [initFavorites, loadBooksFromStorage]
        split <;> simp [alert, saveFavorites, saveBooksToStorage]
      · simp [alert, saveFavorites]

/-- C7, witness: removing `book_1` from the stored list `book_2, book_1, book_3`
in an authenticated session. -/
theorem removeFromFavorites_spec_witness :
    getFavorites (removeFromFavorites sampleIso
        (sampleState (some sampleUser) [sampleBook "book_1" "Nocturne" "Ciencia"]
          (some [.str "book_2", .str "book_1", .str "book_3"])
          (some (sampleBook "book_1" "Nocturne" "Ciencia")))) =
      [.str "book_2", .str "book_3"] :=
  ((removeFromFavorites_spec sampleIso
    (sampleState (some sampleUser) [sampleBook "book_1" "Nocturne" "Ciencia"]
      (some [.str "book_2", .str "book_1", .str "book_3"])
      (some (sampleBook "book_1" "Nocturne" "Ciencia")))
    (sampleBook "book_1" "Nocturne" "Ciencia") "book_1" (by decide) (by decide)).2.2
      (by decide) (by decide) (by decide)).1

/-- C7, counterexample: without a signed-in user, a duplicate-free stored list
that contains the id of the selected book is left as it was. -/
theorem removeFromFavorites_anonymous_keeps_member :
    getFavorites (removeFromFavorites sampleIso
        (sampleState none [sampleBook "book_1" "Nocturne" "Ciencia"]
          (some [.str "book_2", .str "book_1"])
          (some (sampleBook "book_1" "Nocturne" "Ciencia")))) =
      [.str "book_2", .str "book_1"] ∧
    JVal.str "book_1" ∈ getFavorites (removeFromFavorites sampleIso
        (sampleState none [sampleBook "book_1" "Nocturne" "Ciencia"]
          (some [.str "book_2", .str "book_1"])
          (some (sampleBook "book_1" "Nocturne" "Ciencia")))) := by
  decide

/-! ## Settings: theorems -/

theorem WF_defaultSettings : WF defaultSettings := by decide

/-- C8: on page entry (in-memory settings still the compiled-in ones),
`loadSettings` leaves exactly the compiled-in defaults when nothing is
persisted, and with a persisted record `p` every property reads as in `p` when
`p` has it and as in the defaults otherwise. In any state the record that `p`
is laid over is the in-memory one. -/
theorem loadSettings_overlays_defaults (ls : LocalStorage) (path : String) :
    (ls.userSettings = none →
        (loadSettings (initState ls path)).userSettings = defaultSettings) ∧
      (∀ p, ls.userSettings = some p → WF p → ∀ k,
        getProp (loadSettings (initState ls path)).userSettings k =
          (getProp p k).orElse (fun _ => getProp defaultSettings k)) ∧
      (∀ (st : State) (p : JObj), st.localStorage.userSettings = some p → WF p →
        WF st.userSettings → ∀ k,
        getProp (loadSettings st).userSettings k =
          (getProp p k).orElse (fun _ => getProp st.userSettings k)) := by
  have gen : ∀ (st : State) (p : JObj), st.localStorage.userSettings = some p → WF p →
      WF st.userSettings → ∀ k,
      getProp (loadSettings st).userSettings k =
        (getProp p k).orElse (fun _ => getProp st.userSettings k) := by
    intro st p hp hwf hu k
    simp only [loadSettings, hp]
    rw [getProp_assign _ p k hwf, assign_nil_of_WF _ hu]
  refine ⟨?_, ?_, gen⟩
  · intro h
    simp [loadSettings, initState, h]
  · intro p hp hwf k
    exact gen (initState ls path) p hp hwf WF_defaultSettings k

/-- C8, witness: a persisted record holding only `fontSize: "large"`. -/
theorem loadSettings_overlays_defaults_witness :
    getProp (loadSettings (initState
        { emptyStorage with userSettings := some [("fontSize", .str "large")] }
        "/index.html")).userSettings "fontSize" = some (.str "large") ∧
      getProp (loadSettings (initState
        { emptyStorage with userSettings := some [("fontSize", .str "large")] }
        "/index.html")).userSettings "readerTheme" = some (.str "light") ∧
      (loadSettings (initState emptyStorage "/index.html")).userSettings = defaultSettings :=
  have h := loadSettings_overlays_defaults
    { emptyStorage with userSettings := some [("fontSize", .str "large")] } "/index.html"
  ⟨h.2.1 [("fontSize", .str "large")] rfl (by decide) "fontSize",
   h.2.1 [("fontSize", .str "large")] rfl (by decide) "readerTheme",
   (loadSettings_overlays_defaults emptyStorage "/index.html").1 rfl⟩

/-- C9: starting from the compiled-in settings, after `fontSize` is set to `v`
(any value, in particular each of the four allowed ones) and `saveSettings` is
called, `loadSettings` gives the defaults with `fontSize` equal to `v`, both in
the same page and on a newly entered page; and in every state with a well-formed
in-memory record, `saveSettings` followed by `loadSettings` gives back the saved
record. -/
theorem saveSettings_then_loadSettings (ls : LocalStorage) (path path' : String) :
    (∀ v : String,
      (loadSettings (saveSettings { initState ls path with
          userSettings := setProp defaultSettings "fontSize" (.str v) })).userSettings =
        setProp defaultSettings "fontSize" (.str v) ∧
      (loadSettings (initState (saveSettings { initState ls path with
          userSettings := setProp defaultSettings "fontSize" (.str v) }).localStorage
          path')).userSettings = setProp defaultSettings "fontSize" (.str v) ∧
      getProp (setProp defaultSettings "fontSize" (.str v)) "fontSize" = some (.str v) ∧
      ∀ k, k ≠ "fontSize" →
        getProp (setProp defaultSettings "fontSize" (.str v)) k = getProp defaultSettings k) ∧
    (∀ st : State, WF st.userSettings →
      (loadSettings (saveSettings st)).userSettings = st.userSettings ∧
      (loadSettings (saveSettings st)).localStorage.userSettings = some st.userSettings) := by
  have gen : ∀ st : State, WF st.userSettings →
      (loadSettings (saveSettings st)).userSettings = st.userSettings ∧
      (loadSettings (saveSettings st)).localStorage.userSettings = some st.userSettings := by
    intro st hwf
    simp only [loadSettings, saveSettings]
    rw [assign_nil_of_WF _ hwf, assign_self_of_WF _ hwf]
    exact ⟨rfl, trivial⟩
  refine ⟨fun v => ⟨?_, ?_, ?_, ?_⟩, gen⟩
  · simp [loadSettings, saveSettings, initState, assign, setProp, defaultSettings]
  · simp [loadSettings, saveSettings, initState, assign, setProp, defaultSettings]
  · simp [getProp_setProp]
  · intro k hk
    rw [getProp_setProp]
    simp [Ne.symm hk]

/-- C9, witness: the saved record is the default one with `fontSize: "large"`. -/
theorem saveSettings_then_loadSettings_witness :
    (loadSettings (saveSettings { initState emptyStorage "/settings.html" with
        userSettings := setProp defaultSettings "fontSize" (.str "large") })).userSettings =
      setProp defaultSettings "fontSize" (.str "large") :=
  ((saveSettings_then_loadSettings emptyStorage "/settings.html" "/reader.html").2
    { initState emptyStorage "/settings.html" with
        userSettings := setProp defaultSettings "fontSize" (.str "large") } (by decide)).1

/-! ## Seeding: theorems -/

/-- C10: when `localStorage` has no catalog key, `loadBooksFromStorage` returns
the three example books and stores that same list under the catalog key. -/
theorem loadBooksFromStorage_seeds_three (clock : Nat → String) (st : State)
    (h : st.localStorage.biblioBooks = none) :
    (loadBooksFromStorage clock st).booksData = seedBooks clock ∧
      (loadBooksFromStorage clock st).booksData.length = 3 ∧
      (loadBooksFromStorage clock st).localStorage.biblioBooks =
        some (loadBooksFromStorage clock st).booksData := by
  simp [loadBooksFromStorage, h, saveBooksToStorage, seedBooks]

/-- C10, witness: the first load on a page with an empty `localStorage`. -/
theorem loadBooksFromStorage_seeds_three_witness :
    (loadBooksFromStorage sampleIso (initState emptyStorage "/index.html")).booksData.length = 3 ∧
      (loadBooksFromStorage sampleIso (initState emptyStorage "/index.html")).localStorage.biblioBooks
        = some (seedBooks sampleIso) :=
  have h := loadBooksFromStorage_seeds_three sampleIso (initState emptyStorage "/index.html") rfl
  ⟨h.2.1, h.1 ▸ h.2.2⟩

/-- C11: whenever the catalog key is present, `loadBooksFromStorage` returns the
persisted list and leaves `localStorage` as it was, whatever the list (the empty
one included); so after `saveBooksToStorage` with an empty catalog the load
returns no book. -/
theorem loadBooksFromStorage_present_key_no_seed (clock : Nat → String) (st : State) :
    (∀ saved, st.localStorage.biblioBooks = some saved →
        (loadBooksFromStorage clock st).booksData = saved ∧
        (loadBooksFromStorage clock st).localStorage = st.localStorage) ∧
      (loadBooksFromStorage clock (saveBooksToStorage { st with booksData := [] })).booksData
        = [] ∧
      (loadBooksFromStorage clock
        (saveBooksToStorage { st with booksData := [] })).booksData.length = 0 := by
  refine ⟨?_, ?_, ?_⟩
  · intro saved h
    simp [loadBooksFromStorage, h]
  · simp [loadBooksFromStorage, saveBooksToStorage]
  · simp [loadBooksFromStorage, saveBooksToStorage]

/-- C11, witness: a store whose catalog key holds the empty list. -/
theorem loadBooksFromStorage_present_key_no_seed_witness :
    (loadBooksFromStorage sampleIso
        (initState { emptyStorage with biblioBooks := some [] } "/catalog.html")).booksData = [] :=
  ((loadBooksFromStorage_present_key_no_seed sampleIso
    (initState { emptyStorage with biblioBooks := some [] } "/catalog.html")).1 [] rfl).1

/-! ## Session: theorems -/

/-- C12: `signIn` throws the not-found error when no user is persisted;
otherwise the invalid-email error when the persisted email differs from the
given one; otherwise the invalid-password error when the persisted password
differs from the given one; otherwise it returns the persisted user and sets
`currentUser` to it. The three messages are distinct, and the submit listener of
the auth form leaves `currentUser` and `localStorage` unchanged on each
failure. -/
theorem signIn_outcomes (now : Nat) (iso : String) (st : State) (name email password : String) :
    (st.localStorage.biblioUser = none → signIn st email password = .error msgNotFound) ∧
      (∀ user, st.localStorage.biblioUser = some user →
        getProp user "email" ≠ some (.str email) →
        signIn st email password = .error msgInvalidEmail) ∧
      (∀ user, st.localStorage.biblioUser = some user →
        getProp user "email" = some (.str email) →
        st.localStorage.userPassword ≠ some password →
        signIn st email password = .error msgInvalidPassword) ∧
      (∀ user, st.localStorage.biblioUser = some user →
        getProp user "email" = some (.str email) →
        st.localStorage.userPassword = some password →
        signIn st email password = .ok (user, { st with currentUser := some user })) ∧
      (msgNotFound ≠ msgInvalidEmail ∧ msgNotFound ≠ msgInvalidPassword ∧
        msgInvalidEmail ≠ msgInvalidPassword) ∧
      (∀ msg, signIn st email password = .error msg →
        (onAuthSubmit now iso st false name email password).currentUser = st.currentUser ∧
        (onAuthSubmit now iso st false name email password).localStorage = st.localStorage ∧
        (onAuthSubmit now iso st false name email password).alerts = st.alerts ++ [msg]) := by
  refine ⟨?_, ?_, ?_, ?_, by decide, ?_⟩
  · intro h
    simp [signIn, h]
  · intro user h he
    simp [signIn, h, he]
  · intro user h he hp
    simp [signIn, h, he, hp]
  · intro user h he hp
    simp [signIn, h, he, hp]
  · intro msg h
    simp [onAuthSubmit, h, alert]

/-- C12, witness: a stored user `ana@example.com` with password `secret1`, and a
sign-in with another password. -/
theorem signIn_outcomes_witness :
    signIn (initState { emptyStorage with
        biblioUser := some sampleUser, userPassword := some "secret1" } "/login.html")
      "ana@example.com" "other" = .error msgInvalidPassword :=
  (signIn_outcomes 5 "t" (initState { emptyStorage with
      biblioUser := some sampleUser, userPassword := some "secret1" } "/login.html")
    "Ana" "ana@example.com" "other").2.2.1 sampleUser rfl (by decide) (by decide)

/-- C13: what the code does in the scenario. After `signUp` and a confirmed
`signOut` the session is Anonymous, and a following `signIn` with the same email
and any password, the right one included, throws the not-found error, because
`signOut` has removed the user record that `signIn` looks up; the session stays
Anonymous. -/
theorem signIn_after_signOut_is_not_found (now : Nat) (iso : String) (st : State)
    (name email password attempt : String) :
    isAuthenticated (signOut (signUp now iso st name email password).2 true) = false ∧
      signIn (signOut (signUp now iso st name email password).2 true) email attempt
        = .error msgNotFound ∧
      signIn (signOut (signUp now iso st name email password).2 true) email password
        = .error msgNotFound ∧
      (onAuthSubmit now iso (signOut (signUp now iso st name email password).2 true)
        false name email attempt).currentUser = none ∧
      (signOut (signUp now iso st name email password).2 true).localStorage.userPassword
        = some password := by
  simp [signOut, signUp, signIn, isAuthenticated, onAuthSubmit, alert]

/-- C14: after `signUp(name, email, password)` the session is authenticated, the
email of `currentUser` is the given one, the persisted user record is
`currentUser`, the persisted favorites list is empty and the password is stored
as given. -/
theorem signUp_authenticates (now : Nat) (iso : String) (st : State)
    (name email password : String) :
    isAuthenticated (signUp now iso st name email password).2 = true ∧
      (signUp now iso st name email password).2.currentUser =
        some (signUp now iso st name email password).1 ∧
      getProp (signUp now iso st name email password).1 "email" = some (.str email) ∧
      getProp (signUp now iso st name email password).1 "name" = some (.str name) ∧
      (signUp now iso st name email password).2.localStorage.biblioUser =
        (signUp now iso st name email password).2.currentUser ∧
      (signUp now iso st name email password).2.localStorage.biblioFavorites = some [] ∧
      getFavorites (signUp now iso st name email password).2 = [] ∧
      (signUp now iso st name email password).2.localStorage.userPassword = some password := by
  simp [signUp, isAuthenticated, getProp, getFavorites]

/-- C15: `signOut` with the confirmation accepted sets `currentUser` to null,
removes the persisted user record, leaves the other keys of `localStorage` as
they were and asks for the login page; with the confirmation declined it
changes nothing. -/
theorem signOut_confirmed_or_declined (st : State) :
    (signOut st true).currentUser = none ∧
      isAuthenticated (signOut st true) = false ∧
      (signOut st true).localStorage = { st.localStorage with biblioUser := none } ∧
      (signOut st true).href = some "login.html" ∧
      signOut st false = st := by
  simp [signOut, isAuthenticated]

/-- C16: `updateProfile(name, email)` changes nothing in an Anonymous session;
otherwise `currentUser` gets the given name and email, keeps every other
property (`uid` and `createdAt` among them), and is stored under the user key,
the other keys of `localStorage` staying as they were. -/
theorem updateProfile_spec (st : State) (name email : String) :
    (st.currentUser = none → updateProfile st name email = st) ∧
      (∀ user, st.currentUser = some user →
        ∃ user', (updateProfile st name email).currentUser = some user' ∧
          getProp user' "name" = some (.str name) ∧
          getProp user' "email" = some (.str email) ∧
          getProp user' "uid" = getProp user "uid" ∧
          getProp user' "createdAt" = getProp user "createdAt" ∧
          (∀ k, k ≠ "name" → k ≠ "email" → getProp user' k = getProp user k) ∧
          (updateProfile st name email).localStorage =
            { st.localStorage with biblioUser := some user' }) := by
  refine ⟨?_, ?_⟩
  · intro h
    simp [updateProfile, h]
  · intro user h
    refine ⟨setProp (setProp user "name" (.str name)) "email" (.str email), ?_, ?_, ?_, ?_, ?_,
      ?_, ?_⟩
    · simp [updateProfile, h]
    · simp [getProp_setProp]
    · simp [getProp_setProp]
    · simp [getProp_setProp]
    · simp [getProp_setProp]
    · intro k hn he
      simp [getProp_setProp, Ne.symm hn, Ne.symm he]
    · simp [updateProfile, h]

/-- C16, witness: the signed-in sample user renamed. -/
theorem updateProfile_spec_witness :
    ∃ user', (updateProfile (sampleState (some sampleUser) [] none none)
        "Ana Ruiz" "ana.ruiz@example.com").currentUser = some user' ∧
      getProp user' "uid" = getProp sampleUser "uid" ∧
      getProp user' "name" = some (.str "Ana Ruiz") :=
  let ⟨user', h1, h2, _, h4, _⟩ :=
    (updateProfile_spec (sampleState (some sampleUser) [] none none)
      "Ana Ruiz" "ana.ruiz@example.com").2 sampleUser rfl
  ⟨user', h1, h4, h2⟩

/-! ## Upload, edit and delete handlers: theorems -/

/-- C17: when the PDF of the submitted form is larger than 50 MiB
(52,428,800 bytes), `handleUploadSubmit` shows one message and returns with the
in-memory catalog, `localStorage` and the PDF store unchanged, whatever the
session; in an authenticated session the message is a validation message, the
size message when a non-empty cover is selected. A PDF of exactly 52,428,800
bytes passes the size check and the handler goes on to the `try` block. -/
theorem handleUploadSubmit_rejects_oversized_pdf (rt : Runtime) (st : State) (form : BookForm)
    (pdfFile : JsFile) (hpdf : form.pdf = some pdfFile) :
    (pdfFile.size > maxPdfSize →
      (handleUploadSubmit rt st form).booksData = st.booksData ∧
      (handleUploadSubmit rt st form).localStorage = st.localStorage ∧
      (handleUploadSubmit rt st form).db = st.db ∧
      (handleUploadSubmit rt st form).currentUser = st.currentUser ∧
      (∃ msg, (handleUploadSubmit rt st form).alerts = st.alerts ++ [msg]) ∧
      (isAuthenticated st = true →
        handleUploadSubmit rt st form = alert st "Debes seleccionar una imagen de portada" ∨
        handleUploadSubmit rt st form =
          alert st "El archivo PDF es demasiado grande. Máximo 50MB") ∧
      (isAuthenticated st = true → ∀ coverFile, form.cover = some coverFile →
        coverFile.size ≠ 0 →
        handleUploadSubmit rt st form =
          alert st "El archivo PDF es demasiado grande. Máximo 50MB")) ∧
    maxPdfSize = 52428800 ∧
    (pdfFile.size = maxPdfSize → isAuthenticated st = true →
      ∀ coverFile, form.cover = some coverFile → coverFile.size ≠ 0 →
      handleUploadSubmit rt st form = uploadBody rt st form coverFile pdfFile) := by
  refine ⟨?_, by decide, ?_⟩
  · intro hsize
    have hne : pdfFile.size ≠ 0 := by
      have : 0 < maxPdfSize := by decide
      omega
    by_cases hauth : isAuthenticated st = true
    · cases hc : form.cover with
      | none => simp [handleUploadSubmit, hauth, hc, alert]
      | some coverFile =>
        by_cases hz : coverFile.size = 0
        · simp [handleUploadSubmit, hauth, hc, hz, alert]
        · simp [handleUploadSubmit, hauth, hc, hz, hpdf, hne, hsize, alert]
    · simp [handleUploadSubmit, hauth, alert]
  · intro hsize hauth coverFile hc hz
    have hne : pdfFile.size ≠ 0 := by
      have : 0 < maxPdfSize := by decide
      omega
    have hle : ¬ pdfFile.size > maxPdfSize := by omega
    simp [handleUploadSubmit, hauth, hc, hz, hpdf, hne, hle]

/-- C17, witness: a PDF of 60 MiB submitted by the signed-in sample user. -/
theorem handleUploadSubmit_rejects_oversized_pdf_witness :
    (handleUploadSubmit sampleRuntime (sampleState (some sampleUser) [] none none)
        (sampleForm "Salamandra" (60 * 1024 * 1024))).booksData = [] ∧
      (handleUploadSubmit sampleRuntime (sampleState (some sampleUser) [] none none)
        (sampleForm "Salamandra" (60 * 1024 * 1024))).localStorage =
        (sampleState (some sampleUser) [] none none).localStorage ∧
      (handleUploadSubmit sampleRuntime (sampleState (some sampleUser) [] none none)
        (sampleForm "Salamandra" (60 * 1024 * 1024))).db = some [] :=
  have h := (handleUploadSubmit_rejects_oversized_pdf sampleRuntime
    (sampleState (some sampleUser) [] none none) (sampleForm "Salamandra" (60 * 1024 * 1024))
    (sampleFile "book.pdf" (60 * 1024 * 1024)) rfl).1 (by decide)
  ⟨h.1, h.2.1, h.2.2.1⟩

/-- C18 (amended): in an authenticated session `handleUploadSubmit` answers a
missing or empty cover, and then a missing or empty PDF, with a validation
message; in every session a missing or empty cover or PDF leaves the in-memory
catalog, `localStorage` and the PDF store unchanged. The handler does not look
at title, author, category and description: a form in which one of them is
empty, or no cover or PDF is selected, is stopped by the `required` attributes
of the form, so a click on submit does not run the handler and changes
nothing. -/
theorem upload_validation (rt : Runtime) (st : State) (form : BookForm) :
    (isAuthenticated st = true →
      (form.cover = none ∨ ∃ f, form.cover = some f ∧ f.size = 0) →
      handleUploadSubmit rt st form = alert st "Debes seleccionar una imagen de portada") ∧
    (isAuthenticated st = true → (∃ c, form.cover = some c ∧ c.size ≠ 0) →
      (form.pdf = none ∨ ∃ f, form.pdf = some f ∧ f.size = 0) →
      handleUploadSubmit rt st form = alert st "Debes seleccionar un archivo PDF") ∧
    ((form.cover = none ∨ (∃ f, form.cover = some f ∧ f.size = 0) ∨
        form.pdf = none ∨ ∃ f, form.pdf = some f ∧ f.size = 0) →
      (handleUploadSubmit rt st form).booksData = st.booksData ∧
      (handleUploadSubmit rt st form).localStorage = st.localStorage ∧
      (handleUploadSubmit rt st form).db = st.db ∧
      ∃ msg, (handleUploadSubmit rt st form).alerts = st.alerts ++ [msg]) ∧
    ((form.title = "" ∨ form.author = "" ∨ form.category = "" ∨ form.description = "" ∨
        form.cover = none ∨ form.pdf = none) →
      submitUploadForm rt st form = st) := by
  have hcover : isAuthenticated st = true →
      (form.cover = none ∨ ∃ f, form.cover = some f ∧ f.size = 0) →
      handleUploadSubmit rt st form = alert st "Debes seleccionar una imagen de portada" := by
    intro hauth h
    rcases h with h | ⟨f, hf, hz⟩
    · simp [handleUploadSubmit, hauth, h]
    · simp [handleUploadSubmit, hauth, hf, hz]
  have hpdf : isAuthenticated st = true → (∃ c, form.cover = some c ∧ c.size ≠ 0) →
      (form.pdf = none ∨ ∃ f, form.pdf = some f ∧ f.size = 0) →
      handleUploadSubmit rt st form = alert st "Debes seleccionar un archivo PDF" := by
    intro hauth ⟨c, hc, hcz⟩ h
    rcases h with h | ⟨f, hf, hz⟩
    · simp [handleUploadSubmit, hauth, hc, hcz, h]
    · simp [handleUploadSubmit, hauth, hc, hcz, hf, hz]
  refine ⟨hcover, hpdf, ?_, ?_⟩
  · intro h
    by_cases hauth : isAuthenticated st = true
    · by_cases hc : form.cover = none ∨ ∃ f, form.cover = some f ∧ f.size = 0
      · rw [hcover hauth hc]
        simp [alert]
      · have hc' : ∃ c, form.cover = some c ∧ c.size ≠ 0 := by
          cases hcv : form.cover with
          | none => exact absurd (Or.inl hcv) hc
          | some c =>
            refine ⟨c, rfl, ?_⟩
            intro hz
            exact hc (Or.inr ⟨c, hcv, hz⟩)
        have hp : form.pdf = none ∨ ∃ f, form.pdf = some f ∧ f.size = 0 := by
          rcases h with h | h | h | h
          · exact absurd (Or.inl h) hc
          · exact absurd (Or.inr h) hc
          · exact Or.inl h
          · exact Or.inr h
        rw [hpdf hauth hc' hp]
        simp [alert]
    · simp [handleUploadSubmit, hauth, alert]
  · intro h
    have hv : uploadFormValid form = false := by
      simp only [uploadFormValid]
      rcases h with h | h | h | h | h | h <;> simp [h]
    simp [submitUploadForm, hv]

/-- C18, witness: a form with no cover selected, submitted by the signed-in
sample user. -/
theorem upload_validation_witness :
    handleUploadSubmit sampleRuntime (sampleState (some sampleUser) [] none none)
        { sampleForm "Salamandra" 1000 with cover := none } =
      alert (sampleState (some sampleUser) [] none none)
        "Debes seleccionar una imagen de portada" ∧
    submitUploadForm sampleRuntime (sampleState (some sampleUser) [] none none)
        (sampleForm "" 1000) = sampleState (some sampleUser) [] none none :=
  ⟨(upload_validation sampleRuntime (sampleState (some sampleUser) [] none none)
      { sampleForm "Salamandra" 1000 with cover := none }).1 (by decide) (Or.inl rfl),
   (upload_validation sampleRuntime (sampleState (some sampleUser) [] none none)
      (sampleForm "" 1000)).2.2.2 (Or.inl rfl)⟩

/-- C18, counterexample: `handleUploadSubmit` run on a form with an empty title
and both files present adds a book with the empty title to the in-memory and
the persisted catalog and stores its PDF. -/
theorem handleUploadSubmit_accepts_empty_title :
    (handleUploadSubmit sampleRuntime (sampleState (some sampleUser) [] none none)
        (sampleForm "" 1000)).booksData.length = 1 ∧
      (∃ b ∈ (handleUploadSubmit sampleRuntime (sampleState (some sampleUser) [] none none)
          (sampleForm "" 1000)).booksData,
        getProp b "title" = some (.str "") ∧ getProp b "id" = some (.str "book_5")) ∧
      (handleUploadSubmit sampleRuntime (sampleState (some sampleUser) [] none none)
          (sampleForm "" 1000)).localStorage.biblioBooks =
        some (handleUploadSubmit sampleRuntime (sampleState (some sampleUser) [] none none)
          (sampleForm "" 1000)).booksData ∧
      (handleUploadSubmit sampleRuntime (sampleState (some sampleUser) [] none none)
          (sampleForm "" 1000)).db =
        some [("book_5", "data:application/pdf;base64,AAAA")] ∧
      (handleUploadSubmit sampleRuntime (sampleState (some sampleUser) [] none none)
          (sampleForm "" 1000)).alerts = ["¡Libro subido exitosamente!"] := by
  decide

/-- C19 (amended): when the uid of the current user differs from the
`uploadedBy` of the book found for `bookId` (an Anonymous session included),
`openEditModal` shows the refusal and does not open the edit form, so the edit
through the page makes no submission and leaves the in-memory catalog,
`localStorage` and the PDF store unchanged. -/
theorem editBook_refused_for_non_owner (rt : Runtime) (st : State) (bookId : String)
    (form : BookForm) (book : JObj) (hfind : findBook st bookId = some book)
    (hmis : ownerMismatch st book = true) :
    openEditModal st bookId = (alert st "Solo puedes editar tus propios libros", false) ∧
      editBook rt st bookId form = alert st "Solo puedes editar tus propios libros" ∧
      (editBook rt st bookId form).booksData = st.booksData ∧
      (editBook rt st bookId form).localStorage = st.localStorage ∧
      (editBook rt st bookId form).db = st.db := by
  have h1 : openEditModal st bookId =
      (alert st "Solo puedes editar tus propios libros", false) := by
    simp [openEditModal, hfind, hmis]
  have h2 : editBook rt st bookId form = alert st "Solo puedes editar tus propios libros" := by
    simp [editBook, h1]
  refine ⟨h1, h2, ?_, ?_, ?_⟩ <;> rw [h2] <;> rfl

/-- C19, witness: an Anonymous session asks to edit a book uploaded by
`user_7`. -/
theorem editBook_refused_for_non_owner_witness :
    (editBook sampleRuntime
        (sampleState none [sampleBook "book_1" "Nocturne" "Ciencia"] none none) "book_1"
        { sampleForm "Otro" 1000 with cover := none, pdf := none }).booksData =
      [sampleBook "book_1" "Nocturne" "Ciencia"] :=
  (editBook_refused_for_non_owner sampleRuntime
    (sampleState none [sampleBook "book_1" "Nocturne" "Ciencia"] none none) "book_1"
    { sampleForm "Otro" 1000 with cover := none, pdf := none }
    (sampleBook "book_1" "Nocturne" "Ciencia") (by decide) (by decide)).2.2.1

/-- C19, counterexample: `handleEditSubmit` has no check of the uploader: run in
an Anonymous session for a book uploaded by `user_7`, it replaces the title in
the in-memory and in the persisted catalog. -/
theorem handleEditSubmit_updates_for_non_owner :
    ownerMismatch (sampleState none [sampleBook "book_1" "Nocturne" "Ciencia"] none none)
        (sampleBook "book_1" "Nocturne" "Ciencia") = true ∧
      (handleEditSubmit sampleRuntime
          (sampleState none [sampleBook "book_1" "Nocturne" "Ciencia"] none none)
          { sampleForm "Otro" 1000 with cover := none, pdf := none } "book_1").booksData.map
        (fun b => getProp b "title") = [some (.str "Otro")] ∧
      ((handleEditSubmit sampleRuntime
          (sampleState none [sampleBook "book_1" "Nocturne" "Ciencia"] none none)
          { sampleForm "Otro" 1000 with cover := none, pdf := none }
          "book_1").localStorage.biblioBooks.map
        (fun l => l.map (fun b => getProp b "title"))) = some [some (.str "Otro")] := by
  decide

/-- C20: when the uid of the current user differs from the `uploadedBy` of the
book found for `bookId` (an Anonymous session included), `confirmDeleteBook`
shows the refusal and returns, whatever the answer to the dialog would be: the
in-memory catalog, `localStorage` and the PDF store are unchanged. This holds in
particular for each seeded book when the session is Anonymous or the uid is not
`admin`. -/
theorem confirmDeleteBook_refused_for_non_owner (rt : Runtime) (st : State) (bookId : String)
    (confirmed : Bool) :
    (∀ book, findBook st bookId = some book → ownerMismatch st book = true →
      confirmDeleteBook rt st bookId confirmed =
        alert st "Solo puedes eliminar tus propios libros" ∧
      (confirmDeleteBook rt st bookId confirmed).booksData = st.booksData ∧
      (confirmDeleteBook rt st bookId confirmed).localStorage = st.localStorage ∧
      (confirmDeleteBook rt st bookId confirmed).db = st.db) ∧
    (∀ clock, st.booksData = seedBooks clock →
      st.currentUser.bind (fun user => getProp user "uid") ≠ some (.str "admin") →
      (confirmDeleteBook rt st bookId confirmed).booksData = st.booksData ∧
      (confirmDeleteBook rt st bookId confirmed).localStorage = st.localStorage ∧
      (confirmDeleteBook rt st bookId confirmed).db = st.db) := by
  have main : ∀ book, findBook st bookId = some book → ownerMismatch st book = true →
      confirmDeleteBook rt st bookId confirmed =
        alert st "Solo puedes eliminar tus propios libros" := by
    intro book hfind hmis
    simp [confirmDeleteBook, hfind, hmis]
  refine ⟨?_, ?_⟩
  · intro book hfind hmis
    rw [main book hfind hmis]
    exact ⟨rfl, rfl, rfl, rfl⟩
  · intro clock hseed huid
    cases hfind : findBook st bookId with
    | none => simp [confirmDeleteBook, hfind]
    | some book =>
      have hmem : book ∈ seedBooks clock := by
        rw [← hseed]
        exact List.mem_of_find?_eq_some hfind
      have hup : getProp book "uploadedBy" = some (.str "admin") := by
        simp only [seedBooks, List.mem_cons, List.mem_singleton, List.not_mem_nil,
          or_false] at hmem
        rcases hmem with h | h | h <;> subst h <;> simp [getProp]
      have hmis : ownerMismatch st book = true := by
        simp only [ownerMismatch, hup, bne_iff_ne, ne_eq]
        exact fun h => huid h.symm
      rw [main book hfind hmis]
      exact ⟨rfl, rfl, rfl⟩

/-- C20, witness: an Anonymous session asks to delete the seeded book
`book_nocturne`; a signed-in user asks to delete a book of another uploader. -/
theorem confirmDeleteBook_refused_for_non_owner_witness :
    (confirmDeleteBook sampleRuntime
        (loadBooksFromStorage sampleIso (initState emptyStorage "/catalog.html"))
        "book_nocturne" true).booksData = seedBooks sampleIso ∧
      (confirmDeleteBook sampleRuntime
        (sampleState (some [("uid", .str "user_8")]) [sampleBook "book_1" "Nocturne" "Ciencia"]
          none none) "book_1" true).booksData = [sampleBook "book_1" "Nocturne" "Ciencia"] :=
  ⟨((confirmDeleteBook_refused_for_non_owner sampleRuntime
      (loadBooksFromStorage sampleIso (initState emptyStorage "/catalog.html"))
      "book_nocturne" true).2 sampleIso rfl (by decide)).1,
   ((confirmDeleteBook_refused_for_non_owner sampleRuntime
      (sampleState (some [("uid", .str "user_8")]) [sampleBook "book_1" "Nocturne" "Ciencia"]
        none none) "book_1" true).1 (sampleBook "book_1" "Nocturne" "Ciencia")
      (by decide) (by decide)).2.1⟩

/-! ## PDF store and catalog invariants: theorems -/

/-- C21: what the code does on an empty store. After `loadBooksFromStorage` on a
page whose `localStorage` is empty and whose PDF store is open and empty, the
three books of the catalog have `hasPDF` true, the PDF store is still empty,
and `getPDFFromIndexedDB` resolves to null for each of their ids. -/
theorem seeded_books_have_no_pdf_entry (clock : Nat → String) (path : String) :
    (loadBooksFromStorage clock
        { initState emptyStorage path with db := some [] }).booksData.map hasPDF
        = [true, true, true] ∧
      bookIds (loadBooksFromStorage clock { initState emptyStorage path with db := some [] })
        = [some (.str "book_nocturne"), some (.str "book_draco"),
           some (.str "book_salamandra")] ∧
      (loadBooksFromStorage clock { initState emptyStorage path with db := some [] }).db
        = some [] ∧
      getPDFFromIndexedDB
        (loadBooksFromStorage clock { initState emptyStorage path with db := some [] }).db
        "book_nocturne" none = .ok none ∧
      getPDFFromIndexedDB
        (loadBooksFromStorage clock { initState emptyStorage path with db := some [] }).db
        "book_draco" none = .ok none ∧
      getPDFFromIndexedDB
        (loadBooksFromStorage clock { initState emptyStorage path with db := some [] }).db
        "book_salamandra" none = .ok none := by
  simp [loadBooksFromStorage, initState, emptyStorage, saveBooksToStorage, seedBooks, hasPDF,
    getProp, truthy, bookIds, getPDFFromIndexedDB]

/-- C22: what the code does when the PDF write fails. With the PDF store not
opened, a valid upload by the signed-in sample user over a one-book catalog
ends in the `catch` branch with the error message, and the new book `book_5` is
in the in-memory catalog and in the persisted catalog all the same. -/
theorem failed_pdf_write_leaves_new_book :
    (handleUploadSubmit sampleRuntime
        { sampleState (some sampleUser) [sampleBook "book_1" "Nocturne" "Ciencia"] none none
          with db := none }
        (sampleForm "Salamandra" 1000)).alerts
        = ["Error al subir el libro: Database not initialized"] ∧
      bookIds (handleUploadSubmit sampleRuntime
        { sampleState (some sampleUser) [sampleBook "book_1" "Nocturne" "Ciencia"] none none
          with db := none }
        (sampleForm "Salamandra" 1000))
        = [some (.str "book_5"), some (.str "book_1")] ∧
      (handleUploadSubmit sampleRuntime
        { sampleState (some sampleUser) [sampleBook "book_1" "Nocturne" "Ciencia"] none none
          with db := none }
        (sampleForm "Salamandra" 1000)).localStorage.biblioBooks
        = some (handleUploadSubmit sampleRuntime
        { sampleState (some sampleUser) [sampleBook "book_1" "Nocturne" "Ciencia"] none none
          with db := none }
        (sampleForm "Salamandra" 1000)).booksData ∧
      (handleUploadSubmit sampleRuntime
        { sampleState (some sampleUser) [sampleBook "book_1" "Nocturne" "Ciencia"] none none
          with db := none }
        (sampleForm "Salamandra" 1000)).db = none := by
  decide

/-- C23: with the database handle null, `savePDFToIndexedDB`,
`getPDFFromIndexedDB` and `deletePDFFromIndexedDB` reject with the error
`Database not initialized` for every id and payload, whatever the engine would
have answered, and a caller that catches the rejection (`deleteBook`) leaves the
handle null. -/
theorem pdfStore_rejects_when_uninitialized (st : State) (bookId payload : String)
    (fault : Option String) :
    savePDFToIndexedDB none bookId payload fault = .error "Database not initialized" ∧
      getPDFFromIndexedDB none bookId fault = .error "Database not initialized" ∧
      deletePDFFromIndexedDB none bookId fault = .error "Database not initialized" ∧
      (deleteBook { st with db := none } bookId fault).2.db = none := by
  refine ⟨rfl, rfl, rfl, ?_⟩
  unfold deleteBook
  simp only
  split
  · split
    · split <;> simp [deletePDFFromIndexedDB, saveBooksToStorage]
    · rfl
  · rfl

/-- C24 (amended): in the networked variant `handlePageAuth` sends an
authenticated user on the login page to `index.html` and an unauthenticated user
on a page that is neither the login page nor the home page to `login.html`; in
the local variant it sends an authenticated user on the login page to
`index.html` and does nothing for an unauthenticated user, on any page. -/
theorem handlePageAuth_redirects (st : State) (path : String) :
    (jsIncludes path "login.html" = true →
      handlePageAuthNetworked path true = some "index.html") ∧
    (jsIncludes path "login.html" = false → jsIncludes path "index.html" = false →
      path ≠ "/" → jsEndsWith path "/public/" = false →
      handlePageAuthNetworked path false = some "login.html") ∧
    (jsIncludes st.pathname "login.html" = true → isAuthenticated st = true →
      handlePageAuth st = { st with href := some "index.html" }) ∧
    (isAuthenticated st = false → handlePageAuth st = st) := by
  refine ⟨?_, ?_, ?_, ?_⟩
  · intro h
    simp [handlePageAuthNetworked, h]
  · intro h1 h2 h3 h4
    simp [handlePageAuthNetworked, h1, h2, h3, h4]
  · intro h1 h2
    simp [handlePageAuth, h1, h2]
  · intro h
    simp [handlePageAuth, h]

/-- C24, witness: the four cases on concrete pages. -/
theorem handlePageAuth_redirects_witness :
    handlePageAuthNetworked "/login.html" true = some "index.html" ∧
      handlePageAuthNetworked "/catalog.html" false = some "login.html" ∧
      handlePageAuth (sampleState none [] none none) = sampleState none [] none none :=
  ⟨(handlePageAuth_redirects (sampleState none [] none none) "/login.html").1 (by decide),
   (handlePageAuth_redirects (sampleState none [] none none) "/catalog.html").2.1
     (by decide) (by decide) (by decide) (by decide),
   (handlePageAuth_redirects (sampleState none [] none none) "/login.html").2.2.2 (by decide)⟩

/-- C24, counterexample: on the catalog page, which is neither the login page
nor the home page, the local variant leaves an unauthenticated user where they
are, while the networked variant asks for the login page. -/
theorem handlePageAuth_local_keeps_anonymous_on_page :
    isAuthenticated (initState emptyStorage "/catalog.html") = false ∧
      (handlePageAuth (initState emptyStorage "/catalog.html")).href = none ∧
      (authInit (initState emptyStorage "/catalog.html")).href = none ∧
      handlePageAuthNetworked "/catalog.html" false = some "login.html" := by
  decide

/-- C25: after `addBook` the in-memory catalog is the new book followed by the
former catalog in its order, and the persisted catalog is that same list. -/
theorem addBook_prepends_and_persists (now : Nat) (iso : String) (st : State) (bookData : JObj)
    (bookId : Option String) :
    (addBook now iso st bookData bookId).2.booksData =
        (addBook now iso st bookData bookId).1 :: st.booksData ∧
      (addBook now iso st bookData bookId).2.localStorage.biblioBooks =
        some ((addBook now iso st bookData bookId).1 :: st.booksData) ∧
      (addBook now iso st bookData bookId).2.localStorage.biblioBooks =
        some (addBook now iso st bookData bookId).2.booksData := by
  simp [addBook, saveBooksToStorage]

/-- C27: what the code does on an empty store. Each of the three seeded books
has category `Ciencia Ficción`, which is none of the eight labels. -/
theorem seeded_books_category_outside_labels (clock : Nat → String) (path : String) :
    (loadBooksFromStorage clock (initState emptyStorage path)).booksData.map
        (fun b => getProp b "category")
        = [some (.str "Ciencia Ficción"), some (.str "Ciencia Ficción"),
           some (.str "Ciencia Ficción")] ∧
      "Ciencia Ficción" ∉ categoryLabels ∧
      categoryLabels.length = 8 := by
  refine ⟨?_, by decide, rfl⟩
  simp [loadBooksFromStorage, initState, emptyStorage, saveBooksToStorage, seedBooks, getProp]

/-! ## Reader controls: theorems -/

theorem increaseFontSize_step (st : State) (f f' : String)
    (hf : getProp st.userSettings "fontSize" = some (.str f))
    (hstep : (f, f') ∈ [("small", "medium"), ("medium", "large"), ("large", "xlarge")]) :
    increaseFontSize st =
      saveSettings { st with userSettings := setProp st.userSettings "fontSize" (.str f') } := by
  simp only [List.mem_cons, Prod.mk.injEq, List.mem_singleton, List.not_mem_nil,
    or_false] at hstep
  rcases hstep with ⟨rfl, rfl⟩ | ⟨rfl, rfl⟩ | ⟨rfl, rfl⟩ <;>
  · unfold increaseFontSize
    rw [hf]
    rfl

theorem increaseFontSize_top (st : State)
    (hf : getProp st.userSettings "fontSize" = some (.str "xlarge")) :
    increaseFontSize st = st := by
  unfold increaseFontSize
  rw [hf]
  rfl

theorem decreaseFontSize_step (st : State) (f f' : String)
    (hf : getProp st.userSettings "fontSize" = some (.str f))
    (hstep : (f, f') ∈ [("medium", "small"), ("large", "medium"), ("xlarge", "large")]) :
    decreaseFontSize st =
      saveSettings { st with userSettings := setProp st.userSettings "fontSize" (.str f') } := by
  simp only [List.mem_cons, Prod.mk.injEq, List.mem_singleton, List.not_mem_nil,
    or_false] at hstep
  rcases hstep with ⟨rfl, rfl⟩ | ⟨rfl, rfl⟩ | ⟨rfl, rfl⟩ <;>
  · unfold decreaseFontSize
    rw [hf]
    rfl

theorem decreaseFontSize_bottom (st : State)
    (hf : getProp st.userSettings "fontSize" = some (.str "small")) :
    decreaseFontSize st = st := by
  unfold decreaseFontSize
  rw [hf]
  rfl

theorem toggleTheme_step (st : State) (t t' : String)
    (ht : getProp st.userSettings "readerTheme" = some (.str t))
    (hstep : (t, t') ∈ [("light", "dark"), ("dark", "sepia"), ("sepia", "light")]) :
    toggleTheme st =
      saveSettings { st with userSettings := setProp st.userSettings "readerTheme" (.str t') } := by
  simp only [List.mem_cons, Prod.mk.injEq, List.mem_singleton, List.not_mem_nil,
    or_false] at hstep
  rcases hstep with ⟨rfl, rfl⟩ | ⟨rfl, rfl⟩ | ⟨rfl, rfl⟩ <;>
  · unfold toggleTheme
    rw [ht]
    rfl

theorem readerTheme_toggleTheme (st : State) (t t' : String)
    (ht : getProp st.userSettings "readerTheme" = some (.str t))
    (hstep : (t, t') ∈ [("light", "dark"), ("dark", "sepia"), ("sepia", "light")]) :
    getProp (toggleTheme st).userSettings "readerTheme" = some (.str t') ∧
      getProp (toggleTheme st).userSettings "fontSize" = getProp st.userSettings "fontSize" := by
  rw [toggleTheme_step st t t' ht hstep]
  simp [saveSettings, getProp_setProp]

theorem fontSize_increaseFontSize (st : State) (f : String)
    (hf : getProp st.userSettings "fontSize" = some (.str f)) (hfm : f ∈ fontSizes) :
    getProp (increaseFontSize st).userSettings "fontSize" = some (.str (sizeUp f)) ∧
      getProp (increaseFontSize st).userSettings "readerTheme" =
        getProp st.userSettings "readerTheme" := by
  simp only [fontSizes, List.mem_cons, List.mem_singleton, List.not_mem_nil, or_false] at hfm
  rcases hfm with rfl | rfl | rfl | rfl
  · rw [increaseFontSize_step st _ "medium" hf (by decide)]
    simp [saveSettings, getProp_setProp, sizeUp]
  · rw [increaseFontSize_step st _ "large" hf (by decide)]
    simp [saveSettings, getProp_setProp, sizeUp]
  · rw [increaseFontSize_step st _ "xlarge" hf (by decide)]
    simp [saveSettings, getProp_setProp, sizeUp]
  · rw [increaseFontSize_top st hf]
    simp [hf, sizeUp]

theorem fontSize_decreaseFontSize (st : State) (f : String)
    (hf : getProp st.userSettings "fontSize" = some (.str f)) (hfm : f ∈ fontSizes) :
    getProp (decreaseFontSize st).userSettings "fontSize" = some (.str (sizeDown f)) ∧
      getProp (decreaseFontSize st).userSettings "readerTheme" =
        getProp st.userSettings "readerTheme" := by
  simp only [fontSizes, List.mem_cons, List.mem_singleton, List.not_mem_nil, or_false] at hfm
  rcases hfm with rfl | rfl | rfl | rfl
  · rw [decreaseFontSize_bottom st hf]
    simp [hf, sizeDown]
  · rw [decreaseFontSize_step st _ "small" hf (by decide)]
    simp [saveSettings, getProp_setProp, sizeDown]
  · rw [decreaseFontSize_step st _ "medium" hf (by decide)]
    simp [saveSettings, getProp_setProp, sizeDown]
  · rw [decreaseFontSize_step st _ "large" hf (by decide)]
    simp [saveSettings, getProp_setProp, sizeDown]

theorem readerTheme_toggleTheme_next (st : State) (t : String)
    (ht : getProp st.userSettings "readerTheme" = some (.str t)) (htm : t ∈ readerThemes) :
    getProp (toggleTheme st).userSettings "readerTheme" = some (.str (themeNext t)) ∧
      getProp (toggleTheme st).userSettings "fontSize" = getProp st.userSettings "fontSize" := by
  simp only [readerThemes, List.mem_cons, List.mem_singleton, List.not_mem_nil,
    or_false] at htm
  rcases htm with rfl | rfl | rfl
  · exact readerTheme_toggleTheme st _ "dark" ht (by decide)
  · exact readerTheme_toggleTheme st _ "sepia" ht (by decide)
  · exact readerTheme_toggleTheme st _ "light" ht (by decide)

theorem sizeUp_mem (f : String) : sizeUp f ∈ fontSizes := by
  unfold sizeUp
  split
  · decide
  · split <;> decide

theorem sizeDown_mem (f : String) : sizeDown f ∈ fontSizes := by
  unfold sizeDown
  split
  · decide
  · split <;> decide

theorem themeNext_mem (t : String) : themeNext t ∈ readerThemes := by
  unfold themeNext
  split
  · decide
  · split <;> decide

theorem themeNext_thrice (t : String) (htm : t ∈ readerThemes) :
    themeNext (themeNext (themeNext t)) = t := by
  simp only [readerThemes, List.mem_cons, List.mem_singleton, List.not_mem_nil,
    or_false] at htm
  rcases htm with rfl | rfl | rfl <;> decide

/-- C29: for settings whose `fontSize` is one of small, medium, large, xlarge
and whose `readerTheme` is one of light, dark, sepia, after `increaseFontSize`,
`decreaseFontSize` or `toggleTheme` both are still in those sets;
`increaseFontSize` moves `fontSize` one step up and changes nothing at xlarge,
`decreaseFontSize` moves it one step down and changes nothing at small, each
leaving `readerTheme` alone; `toggleTheme` moves `readerTheme` to the next theme
of the cycle, leaves `fontSize` alone, and three calls bring `readerTheme` back
to its starting value. -/
theorem reader_controls_keep_value_sets (st : State) (f t : String)
    (hf : getProp st.userSettings "fontSize" = some (.str f)) (hfm : f ∈ fontSizes)
    (ht : getProp st.userSettings "readerTheme" = some (.str t)) (htm : t ∈ readerThemes) :
    (getProp (increaseFontSize st).userSettings "fontSize" = some (.str (sizeUp f)) ∧
      sizeUp f ∈ fontSizes ∧
      getProp (increaseFontSize st).userSettings "readerTheme" = some (.str t) ∧
      (f = "xlarge" → increaseFontSize st = st)) ∧
    (getProp (decreaseFontSize st).userSettings "fontSize" = some (.str (sizeDown f)) ∧
      sizeDown f ∈ fontSizes ∧
      getProp (decreaseFontSize st).userSettings "readerTheme" = some (.str t) ∧
      (f = "small" → decreaseFontSize st = st)) ∧
    (getProp (toggleTheme st).userSettings "readerTheme" = some (.str (themeNext t)) ∧
      themeNext t ∈ readerThemes ∧
      getProp (toggleTheme st).userSettings "fontSize" = some (.str f) ∧
      getProp (toggleTheme (toggleTheme (toggleTheme st))).userSettings "readerTheme" =
        some (.str t)) := by
  obtain ⟨hi1, hi2⟩ := fontSize_increaseFontSize st f hf hfm
  obtain ⟨hd1, hd2⟩ := fontSize_decreaseFontSize st f hf hfm
  obtain ⟨ht1, ht2⟩ := readerTheme_toggleTheme_next st t ht htm
  obtain ⟨ht3, _⟩ := readerTheme_toggleTheme_next (toggleTheme st) (themeNext t) ht1
    (themeNext_mem t)
  obtain ⟨ht4, _⟩ := readerTheme_toggleTheme_next (toggleTheme (toggleTheme st))
    (themeNext (themeNext t)) ht3 (themeNext_mem _)
  refine ⟨⟨hi1, sizeUp_mem f, hi2.trans ht, ?_⟩, ⟨hd1, sizeDown_mem f, hd2.trans ht, ?_⟩,
    ⟨ht1, themeNext_mem t, ht2.trans hf, ?_⟩⟩
  · intro h
    exact increaseFontSize_top st (h ▸ hf)
  · intro h
    exact decreaseFontSize_bottom st (h ▸ hf)
  · rw [ht4, themeNext_thrice t htm]

/-- C29, witness: the compiled-in settings (`medium`, `light`). -/
theorem reader_controls_keep_value_sets_witness :
    getProp (increaseFontSize (initState emptyStorage "/reader.html")).userSettings "fontSize"
        = some (.str "large") ∧
      getProp (toggleTheme (toggleTheme (toggleTheme
        (initState emptyStorage "/reader.html")))).userSettings "readerTheme"
        = some (.str "light") :=
  have h := reader_controls_keep_value_sets (initState emptyStorage "/reader.html")
    "medium" "light" (by decide) (by decide) (by decide) (by decide)
  ⟨h.1.1, h.2.2.2.2.2⟩

/-! ## Order of the filter and the networked variant: theorems -/

/-- C30: on every catalog of books `filterBooks` succeeds with the books of
`booksData` that pass the two tests, in their order and with their
multiplicity, so a sublist of `booksData`; with category `all` and an empty
search text the result is the whole catalog, for every catalog; and on every
non-empty catalog the networked `filterBooks` gives the same result as the local
one. -/
theorem filterBooks_keeps_order_and_agrees_with_networked (lower : String → String)
    (fetched : List JObj) (st : State) :
    ((∀ b ∈ st.booksData, isBook b) →
      filterBooks lower st = .ok { st with
        currentBooks :=
          st.booksData.filter (keepBook lower st.currentCategory st.currentSearch) } ∧
      (st.booksData.filter (keepBook lower st.currentCategory st.currentSearch)).Sublist
        st.booksData ∧
      ∀ b, (st.booksData.filter (keepBook lower st.currentCategory st.currentSearch)).count b
        = if keepBook lower st.currentCategory st.currentSearch b then st.booksData.count b
          else 0) ∧
    filterBooks lower { st with currentCategory := "all", currentSearch := "" } =
      .ok { st with
        currentCategory := "all"
        currentSearch := ""
        currentBooks := st.booksData } ∧
    (st.booksData ≠ [] → filterBooksNetworked lower fetched st = filterBooks lower st) := by
  refine ⟨?_, ?_, ?_⟩
  · intro h
    refine ⟨?_, List.filter_sublist _, ?_⟩
    · simp only [filterBooks,
        filterList_eq_filter lower st.booksData st.currentCategory st.currentSearch h]
    · intro b
      by_cases hk : keepBook lower st.currentCategory st.currentSearch b = true
      · rw [if_pos hk, List.count_filter hk]
      · rw [if_neg hk]
        apply List.count_eq_zero_of_not_mem
        intro hmem
        exact hk (List.mem_filter.mp hmem).2
  · simp [filterBooks, filterList]
  · intro hne
    have hlen : (st.booksData.length == 0) = false := by
      cases hb : st.booksData with
      | nil => exact absurd hb hne
      | cons a rest => rfl
    simp [filterBooksNetworked, filterBooks, hlen]

/-- C30, witness: a one-book catalog, category "Ciencia", search text "noc". -/
theorem filterBooks_keeps_order_and_agrees_with_networked_witness :
    filterBooksNetworked asciiLower []
        { sampleState none [sampleBook "book_1" "Nocturne" "Ciencia"] none none with
          currentCategory := "Ciencia", currentSearch := "noc" } =
      filterBooks asciiLower
        { sampleState none [sampleBook "book_1" "Nocturne" "Ciencia"] none none with
          currentCategory := "Ciencia", currentSearch := "noc" } :=
  (filterBooks_keeps_order_and_agrees_with_networked asciiLower []
    { sampleState none [sampleBook "book_1" "Nocturne" "Ciencia"] none none with
      currentCategory := "Ciencia", currentSearch := "noc" }).2.2 (by decide)

/-! ## Generated ids: lemmas -/

theorem toDigitsCore_eq_decimalChars (fuel : Nat) : ∀ (n : Nat) (ds : List Char), n < fuel →
    Nat.toDigitsCore 10 fuel n ds = decimalChars n ++ ds := by
  induction fuel with
  | zero => intro n ds h; omega
  | succ fuel ih =>
    intro n ds h
    unfold Nat.toDigitsCore
    by_cases h0 : n / 10 = 0
    · simp only [h0, if_true]
      have hlt : n < 10 := by omega
      by_cases hn : n = 0
      · subst hn; rfl
      · have : Nat.digits 10 n = [n] := Nat.digits_of_lt 10 n hn hlt
        simp [decimalChars, hn, this, Nat.mod_eq_of_lt hlt]
    · simp only [h0, if_false]
      have hn : n ≠ 0 := by intro h; subst h; simp at h0
      have hlt : n / 10 < fuel := by omega
      rw [ih (n / 10) _ hlt]
      have hd : Nat.digits 10 n = (n % 10) :: Nat.digits 10 (n / 10) :=
        Nat.digits_def' (by decide) (Nat.pos_of_ne_zero hn)
      simp [decimalChars, hn, h0, hd]

theorem toString_data (n : Nat) : (toString n).data = decimalChars n := by
  show (Nat.repr n).data = _
  simp [Nat.repr, Nat.toDigits, toDigitsCore_eq_decimalChars (n + 1) n [] (Nat.lt_succ_self n),
    List.asString]

theorem charValue_digitChar : ∀ d, d < 10 → charValue (Nat.digitChar d) = d := by
  decide

theorem digitChar_ne_letter : ∀ d, d < 10 →
    Nat.digitChar d ≠ 'n' ∧ Nat.digitChar d ≠ 'd' ∧ Nat.digitChar d ≠ 's' := by
  decide

theorem numeralValue_decimalChars (n : Nat) : numeralValue (decimalChars n) = n := by
  by_cases hn : n = 0
  · subst hn; rfl
  · simp only [numeralValue, decimalChars, hn, if_false, List.map_reverse, List.reverse_reverse,
      List.map_map]
    have : (Nat.digits 10 n).map (charValue ∘ Nat.digitChar) = Nat.digits 10 n := by
      conv_rhs => rw [← List.map_id (Nat.digits 10 n)]
      apply List.map_congr_left
      intro d hd
      exact charValue_digitChar d (Nat.digits_lt_base (by decide) hd)
    rw [this, Nat.ofDigits_digits]

theorem decimalChars_head (n : Nat) :
    ∃ d, d < 10 ∧ ∃ rest, decimalChars n = Nat.digitChar d :: rest := by
  by_cases hn : n = 0
  · exact ⟨0, by decide, [], by subst hn; rfl⟩
  · have hne : (Nat.digits 10 n).reverse ≠ [] := by
      simpa using (Nat.digits_ne_nil_iff_ne_zero.mpr hn)
    cases hr : (Nat.digits 10 n).reverse with
    | nil => exact absurd hr hne
    | cons d rest =>
      have hmem : d ∈ Nat.digits 10 n := by
        have : d ∈ (Nat.digits 10 n).reverse := by rw [hr]; exact List.mem_cons_self _ _
        simpa using this
      exact ⟨d, Nat.digits_lt_base (by decide) hmem, rest.map Nat.digitChar, by
        simp [decimalChars, hn, hr]⟩

theorem generatedId_data (n : Nat) :
    ("book_" ++ toString n).data = 'b' :: 'o' :: 'o' :: 'k' :: '_' :: decimalChars n := by
  rw [String.data_append, toString_data]
  rfl

theorem generatedId_injective (n m : Nat)
    (h : "book_" ++ toString n = "book_" ++ toString m) : n = m := by
  have h1 := congrArg String.data h
  rw [generatedId_data, generatedId_data] at h1
  have h2 : decimalChars n = decimalChars m := by simpa using h1
  have h3 := congrArg numeralValue h2
  rwa [numeralValue_decimalChars, numeralValue_decimalChars] at h3

theorem generatedId_ne_empty (n : Nat) : "book_" ++ toString n ≠ "" := by
  intro h
  have h1 := congrArg String.data h
  rw [generatedId_data] at h1
  simp at h1

theorem generatedId_ne_seed (n : Nat) :
    "book_" ++ toString n ≠ "book_nocturne" ∧ "book_" ++ toString n ≠ "book_draco" ∧
      "book_" ++ toString n ≠ "book_salamandra" := by
  obtain ⟨d, hd, rest, hrest⟩ := decimalChars_head n
  obtain ⟨h1, h2, h3⟩ := digitChar_ne_letter d hd
  refine ⟨?_, ?_, ?_⟩ <;>
  · intro h
    have hdata := congrArg String.data h
    rw [generatedId_data, hrest] at hdata
    simp only [List.cons.injEq, true_and] at hdata
    first
      | exact h1 hdata.1
      | exact h2 hdata.1
      | exact h3 hdata.1

/-! ## Creates: lemmas -/

theorem handleUploadSubmit_reaches_addBook (rt : Runtime) (st : State) (form : BookForm)
    (coverFile pdfFile : JsFile) (coverUrl pdfUrl : String)
    (hauth : isAuthenticated st = true)
    (hc : form.cover = some coverFile) (hcz : coverFile.size ≠ 0)
    (hcr : coverFile.dataUrl = some coverUrl)
    (hp : form.pdf = some pdfFile) (hpz : pdfFile.size ≠ 0) (hps : pdfFile.size ≤ maxPdfSize)
    (hpr : pdfFile.dataUrl = some pdfUrl) :
    (handleUploadSubmit rt st form).booksData =
      (addBook rt.now rt.iso st (uploadBookData rt form coverUrl pdfFile)
        (some ("book_" ++ toString rt.now))).1 :: st.booksData := by
  have hle : ¬ pdfFile.size > maxPdfSize := by omega
  simp only [handleUploadSubmit, hauth, hc, hcz, hp, hpz, hle, uploadBody, readFileAsDataURL,
    hcr, hpr, Bool.not_true, Bool.false_eq_true, if_false, beq_iff_eq]
  split
  · simp [alert, addBook, saveBooksToStorage, uploadBookData]
  · simp [alert, addBook, saveBooksToStorage, loadBooksFromStorage, uploadBookData]

theorem bookIds_handleUploadSubmit (rt : Runtime) (st : State) (form : BookForm) :
    bookIds (handleUploadSubmit rt st form) = bookIds st ∨
      bookIds (handleUploadSubmit rt st form) =
        some (.str ("book_" ++ toString rt.now)) :: bookIds st := by
  by_cases hauth : isAuthenticated st = true
  · cases hc : form.cover with
    | none => left; simp [handleUploadSubmit, hauth, hc, alert, bookIds]
    | some coverFile =>
      by_cases hcz : coverFile.size = 0
      · left; simp [handleUploadSubmit, hauth, hc, hcz, alert, bookIds]
      · cases hp : form.pdf with
        | none => left; simp [handleUploadSubmit, hauth, hc, hcz, hp, alert, bookIds]
        | some pdfFile =>
          by_cases hpz : pdfFile.size = 0
          · left; simp [handleUploadSubmit, hauth, hc, hcz, hp, hpz, alert, bookIds]
          · by_cases hps : pdfFile.size > maxPdfSize
            · left; simp [handleUploadSubmit, hauth, hc, hcz, hp, hpz, hps, alert, bookIds]
            · cases hcr : coverFile.dataUrl with
              | none =>
                left
                simp [handleUploadSubmit, hauth, hc, hcz, hp, hpz, hps, uploadBody,
                  readFileAsDataURL, hcr, alert, bookIds]
              | some coverUrl =>
                cases hpr : pdfFile.dataUrl with
                | none =>
                  left
                  simp [handleUploadSubmit, hauth, hc, hcz, hp, hpz, hps, uploadBody,
                    readFileAsDataURL, hcr, hpr, alert, bookIds]
                | some pdfUrl =>
                  right
                  have hadd := handleUploadSubmit_reaches_addBook rt st form coverFile pdfFile
                    coverUrl pdfUrl hauth hc hcz hcr hp hpz (by omega) hpr
                  have hid := getProp_id_addBook rt.now rt.iso st
                    (uploadBookData rt form coverUrl pdfFile)
                    (some ("book_" ++ toString rt.now))
                    (by simp [keys, uploadBookData])
                  have hne := generatedId_ne_empty rt.now
                  have hass : assignedId (some ("book_" ++ toString rt.now)) rt.now =
                      "book_" ++ toString rt.now := by
                    simp [assignedId, hne]
                  rw [hass] at hid
                  simp only [bookIds, hadd, List.map_cons, hid]
  · left
    simp [handleUploadSubmit, hauth, alert, bookIds]

theorem runUploads_cons (st : State) (upload : Runtime × BookForm)
    (rest : List (Runtime × BookForm)) :
    runUploads st (upload :: rest) =
      runUploads (handleUploadSubmit upload.1 st upload.2) rest := rfl

theorem bookIds_runUploads_nodup (uploads : List (Runtime × BookForm)) :
    ∀ st : State, (bookIds st).Nodup →
      (∀ u ∈ uploads, some (JVal.str ("book_" ++ toString u.1.now)) ∉ bookIds st) →
      (uploads.map (fun u => u.1.now)).Nodup →
      (bookIds (runUploads st uploads)).Nodup := by
  induction uploads with
  | nil => intro st h _ _; exact h
  | cons u rest ih =>
    intro st hnd hfresh hclock
    rw [runUploads_cons]
    have hclock' : u.1.now ∉ rest.map (fun u => u.1.now) ∧
        (rest.map (fun u => u.1.now)).Nodup := by
      simpa using hclock
    rcases bookIds_handleUploadSubmit u.1 st u.2 with hsame | hnew
    · apply ih _ (hsame ▸ hnd) _ hclock'.2
      intro u' hu'
      rw [hsame]
      exact hfresh u' (List.mem_cons_of_mem _ hu')
    · apply ih _ _ _ hclock'.2
      · rw [hnew]
        exact List.nodup_cons.mpr ⟨hfresh u (List.mem_cons_self _ _), hnd⟩
      · intro u' hu'
        rw [hnew]
        intro hmem
        rcases List.mem_cons.mp hmem with heq | hin
        · have hs : "book_" ++ toString u'.1.now = "book_" ++ toString u.1.now := by
            simpa using heq
          have hnow := generatedId_injective _ _ hs
          apply hclock'.1
          rw [← hnow]
          exact List.mem_map.mpr ⟨u', hu', rfl⟩
        · exact hfresh u' (List.mem_cons_of_mem _ hu') hin

/-! ## Creates: theorems -/

/-- C26 (amended): in the catalog returned by `loadBooksFromStorage` on a store
without catalog key and then extended by any sequence of upload submissions
whose readings of `Date.now()` are pairwise different, no two books have the
same id. -/
theorem uploads_keep_ids_unique (clock : Nat → String) (st : State)
    (uploads : List (Runtime × BookForm))
    (hempty : st.localStorage.biblioBooks = none)
    (hclock : (uploads.map (fun u => u.1.now)).Nodup) :
    (bookIds (runUploads (loadBooksFromStorage clock st) uploads)).Nodup := by
  have hids : bookIds (loadBooksFromStorage clock st) =
      [some (.str "book_nocturne"), some (.str "book_draco"), some (.str "book_salamandra")] := by
    simp [bookIds, loadBooksFromStorage, hempty, saveBooksToStorage, seedBooks, getProp]
  apply bookIds_runUploads_nodup uploads _ _ _ hclock
  · rw [hids]; decide
  · intro u _
    rw [hids]
    obtain ⟨h1, h2, h3⟩ := generatedId_ne_seed u.1.now
    simp [h1, h2, h3]

/-- C26, witness: two uploads by the signed-in sample user, read at the clock
values 5 and 6, after the seeding load. -/
theorem uploads_keep_ids_unique_witness :
    (bookIds (runUploads
      (loadBooksFromStorage sampleIso
        { initState emptyStorage "/catalog.html" with
          currentUser := some sampleUser, db := some [] })
      [(sampleRuntime, sampleForm "Salamandra" 1000),
       ({ sampleRuntime with now := 6 }, sampleForm "Nocturne" 1000)])).Nodup :=
  uploads_keep_ids_unique sampleIso
    { initState emptyStorage "/catalog.html" with
      currentUser := some sampleUser, db := some [] }
    [(sampleRuntime, sampleForm "Salamandra" 1000),
     ({ sampleRuntime with now := 6 }, sampleForm "Nocturne" 1000)]
    rfl (by decide)

/-- C26, counterexample: two uploads that read the same value 5 of `Date.now()`
give two books with id `book_5`. -/
theorem uploads_same_clock_reading_share_id :
    bookIds (runUploads
      (loadBooksFromStorage sampleIso
        { initState emptyStorage "/catalog.html" with
          currentUser := some sampleUser, db := some [] })
      [(sampleRuntime, sampleForm "Salamandra" 1000),
       (sampleRuntime, sampleForm "Nocturne" 1000)]) =
      [some (.str "book_5"), some (.str "book_5"), some (.str "book_nocturne"),
       some (.str "book_draco"), some (.str "book_salamandra")] := by
  decide

theorem WF_uploadBookData (rt : Runtime) (form : BookForm) (coverUrl : String)
    (pdfFile : JsFile) : WF (uploadBookData rt form coverUrl pdfFile) := by
  simp [WF, keys, uploadBookData]

theorem getProp_addBook_of_bookData (now : Nat) (iso : String) (st : State) (bookData : JObj)
    (bookId : Option String) (k : String) (v : JVal) (hwf : WF bookData)
    (hk : getProp bookData k = some v) (h1 : k ≠ "uploadedBy") (h2 : k ≠ "createdAt") :
    getProp (addBook now iso st bookData bookId).1 k = some v := by
  simp only [addBook, getProp_setProp, Ne.symm h1, Ne.symm h2, if_false]
  exact getProp_assign_of_some bookData k v hwf hk _

/-- C28 (amended): for every text in the pages and year inputs of an upload
that passes the checks on its files, the created book has as pages the integer
`parseInt(pages) || 0` and as year the integer `parseInt(year) || current year`:
pages is 0 and year is the current year when the text is empty or not a number
(`parseInt` gives `NaN`) or parses to 0, and otherwise they are the parsed
integers with their sign, so a negative text gives a negative pages. -/
theorem upload_pages_and_year (rt : Runtime) (st : State) (form : BookForm)
    (coverFile pdfFile : JsFile) (coverUrl pdfUrl : String)
    (hauth : isAuthenticated st = true)
    (hc : form.cover = some coverFile) (hcz : coverFile.size ≠ 0)
    (hcr : coverFile.dataUrl = some coverUrl)
    (hp : form.pdf = some pdfFile) (hpz : pdfFile.size ≠ 0) (hps : pdfFile.size ≤ maxPdfSize)
    (hpr : pdfFile.dataUrl = some pdfUrl) :
    ∃ newBook, (handleUploadSubmit rt st form).booksData = newBook :: st.booksData ∧
      getProp newBook "pages" = some (.num (intOr (rt.parseInt form.pages) 0)) ∧
      getProp newBook "year" = some (.num (intOr (rt.parseInt form.year) rt.fullYear)) ∧
      (rt.parseInt form.pages = none ∨ rt.parseInt form.pages = some 0 →
        getProp newBook "pages" = some (.num 0)) ∧
      (∀ n, rt.parseInt form.pages = some n → n ≠ 0 →
        getProp newBook "pages" = some (.num n)) ∧
      (rt.parseInt form.year = none ∨ rt.parseInt form.year = some 0 →
        getProp newBook "year" = some (.num rt.fullYear)) ∧
      (∀ n, rt.parseInt form.year = some n → n ≠ 0 →
        getProp newBook "year" = some (.num n)) ∧
      jsParseInt "" = none ∧ jsParseInt "abc" = none ∧ jsParseInt "120" = some 120 ∧
      jsParseInt "-5" = some (-5) := by
  have hadd := handleUploadSubmit_reaches_addBook rt st form coverFile pdfFile coverUrl pdfUrl
    hauth hc hcz hcr hp hpz hps hpr
  have hwf := WF_uploadBookData rt form coverUrl pdfFile
  have hpages : getProp (addBook rt.now rt.iso st (uploadBookData rt form coverUrl pdfFile)
      (some ("book_" ++ toString rt.now))).1 "pages" =
      some (.num (intOr (rt.parseInt form.pages) 0)) :=
    getProp_addBook_of_bookData _ _ _ _ _ "pages" _ hwf (by simp [getProp, uploadBookData])
      (by decide) (by decide)
  have hyear : getProp (addBook rt.now rt.iso st (uploadBookData rt form coverUrl pdfFile)
      (some ("book_" ++ toString rt.now))).1 "year" =
      some (.num (intOr (rt.parseInt form.year) rt.fullYear)) :=
    getProp_addBook_of_bookData _ _ _ _ _ "year" _ hwf (by simp [getProp, uploadBookData])
      (by decide) (by decide)
  refine ⟨_, hadd, hpages, hyear, ?_, ?_, ?_, ?_, by decide, by decide, by decide, by decide⟩
  · intro h
    rw [hpages]
    rcases h with h | h <;> simp [intOr, h]
  · intro n h hn
    rw [hpages]
    simp [intOr, h, hn]
  · intro h
    rw [hyear]
    rcases h with h | h <;> simp [intOr, h]
  · intro n h hn
    rw [hyear]
    simp [intOr, h, hn]

/-- C28, witness: the sample form (pages "120", year "2020") submitted by the
signed-in sample user. -/
theorem upload_pages_and_year_witness :
    ∃ newBook, (handleUploadSubmit sampleRuntime (sampleState (some sampleUser) [] none none)
        (sampleForm "Salamandra" 1000)).booksData = [newBook] ∧
      getProp newBook "pages" = some (.num 120) ∧
      getProp newBook "year" = some (.num 2020) :=
  let ⟨newBook, h1, h2, h3, _⟩ := upload_pages_and_year sampleRuntime
    (sampleState (some sampleUser) [] none none) (sampleForm "Salamandra" 1000)
    (sampleFile "cover.png" 1000) (sampleFile "book.pdf" 1000)
    "data:application/pdf;base64,AAAA" "data:application/pdf;base64,AAAA"
    (by decide) rfl (by decide) rfl rfl (by decide) (by decide) rfl
  ⟨newBook, h1, h2, h3⟩

/-- C28, counterexample: with the text "-5" in the pages input the created book
has pages -5, which is negative. -/
theorem upload_negative_pages :
    jsParseInt "-5" = some (-5) ∧
      (handleUploadSubmit { sampleRuntime with parseInt := jsParseInt }
        (sampleState (some sampleUser) [] none none)
        { sampleForm "Salamandra" 1000 with pages := "-5" }).booksData.map
        (fun b => getProp b "pages") = [some (.num (-5))] ∧
      ((-5 : Int) < 0) := by
  decide

end BiblioDigital
